import Mathlib

set_option maxRecDepth 8000

/- =========================================================================
   Shallow embedding of the repository's source file
   src/services/swap.py (class SwapService).

   Conventions used throughout:

   * The two external collaborators (the OKX aggregator HTTP client
     `providers/okx/client.py` and the blockchain RPC helper
     `utils/web3_helper.py`, both outside src/) are modelled as a record
     `Env` of response functions.  Every fallible HTTP/RPC call returns
     `Except Err` and appends an `Event` to a trace; `parse_token_amount`
     is a local pure helper (decimal-string scaling, no I/O) and is a
     plain function in `Env`.  Responses are typed according to the
     aggregator's documented schema (`data[0].spenderAddress`,
     `data[0].tx.gasPrice`, ...).

   * Numeric strings (chain ids, integer amount strings, numeric JSON gas
     fields) are modelled by the integers they denote: Python `int(...)`
     applied to such a string is the identity, and `str(...)` is
     `toString`.  Monetary and gas quantities are nonnegative.

   * Python's `int(x * 1.5)` (swap.py lines 48, 49, 170, 171) is float
     arithmetic; it is modelled exactly by `pyMul1_5`, which implements
     IEEE-754 binary64 round-to-nearest-even.
   ========================================================================= -/

/- Errors raised during a swap flow.  `callFail` models an exception
   raised by an external HTTP/RPC collaborator call; `valueError` models
   the ValueError raised by the module itself (swap.py line 81). -/
inductive Err where
  | callFail (msg : String)
  | valueError (msg : String)
deriving DecidableEq

/- ------------------------------------------------------------------
   Python dictionaries with string keys and string values, preserving
   insertion order, as used for the request parameter dictionaries.
   ------------------------------------------------------------------ -/

abbrev Dict := List (String × String)

def dictHasKey (d : Dict) (k : String) : Bool :=
  d.any (fun p => p.1 == k)

/- `d[k] = v`: replace in place if the key exists, else append. -/
def dictSet (d : Dict) (k v : String) : Dict :=
  if dictHasKey d k then d.map (fun p => if p.1 == k then (k, v) else p)
  else d ++ [(k, v)]

/- `{**d, **kw}`: merge `kw` into `d`, `kw` winning on key clashes. -/
def dictMerge (d kw : Dict) : Dict :=
  kw.foldl (fun acc p => dictSet acc p.1 p.2) d

def dictGet (d : Dict) (k : String) : Option String :=
  (d.find? (fun p => p.1 == k)).map (fun p => p.2)

/- ------------------------------------------------------------------
   Exact model of CPython `int(x * 1.5)` for a nonnegative int x
   (IEEE-754 binary64 arithmetic).
   ------------------------------------------------------------------ -/

/- Number of binary digits of n, valid for n < 2 ^ 1100 (Python floats
   overflow to an exception far below that bound, at 2 ^ 1024). -/
def bitlen (n : ℕ) : ℕ :=
  ((Finset.range 1100).filter (fun i => 2 ^ i ≤ n)).card

/- Round n to a multiple of 2 ^ e, to nearest, ties to the even multiple. -/
def rne (n : ℕ) (e : ℕ) : ℕ :=
  if n % 2 ^ e < 2 ^ (e - 1) then n / 2 ^ e * 2 ^ e
  else if 2 ^ (e - 1) < n % 2 ^ e then (n / 2 ^ e + 1) * 2 ^ e
  else (if n / 2 ^ e % 2 = 0 then n / 2 ^ e else n / 2 ^ e + 1) * 2 ^ e

/- Round a nonnegative integer to a 53-bit significand (binary64 round to
   nearest, ties to even).  Doubles in the binade [2^(b-1), 2^b) with
   b > 53 are spaced 2^(b-53) apart, with even ties going to the even
   multiple of the spacing. -/
def roundMant (n : ℕ) : ℕ :=
  if bitlen n ≤ 53 then n else rne n (bitlen n - 53)

/- CPython `int(x * 1.5)` for a nonnegative int `x`: `x` is converted to
   binary64 (`roundMant x`), multiplied exactly by 1.5 (the exact product
   is `3 * roundMant x` halves; 1.5 is itself exact), the product is
   rounded back to binary64 (counting in halves, the binade spacing again
   corresponds to `roundMant` on the doubled value), and `int` truncates
   toward zero. -/
def pyMul1_5 (x : ℕ) : ℕ :=
  roundMant (3 * roundMant x) / 2

/- ------------------------------------------------------------------
   Data model: wallets, aggregator responses, transactions.
   ------------------------------------------------------------------ -/

/- One entry of config.settings.WALLET_CONFIG. -/
structure Wallet where
  address : String
  private_key : String
deriving DecidableEq

/- `approve_data["data"][0]` of the aggregator's approve-transaction
   response: spender address, gas limit (a numeric string, modelled by
   its integer value) and calldata (swap.py lines 28, 41, 49, 50). -/
structure ApproveItem where
  spenderAddress : String
  gasLimit : Nat
  data : String
deriving DecidableEq

/- The approve-transaction response; `data0` models `["data"][0]`. -/
structure ApproveResp where
  data0 : ApproveItem
deriving DecidableEq

/- `swap_data["data"][0]["tx"]` of the aggregator's swap response
   (swap.py lines 164, 169-173); numeric string fields are modelled by
   their integer values. -/
structure SwapTxInfo where
  toAddr : String
  gasPrice : Nat
  gas : Nat
  data : String
  value : Nat
deriving DecidableEq

/- The swap response; `tx0` models `["data"][0]["tx"]`. -/
structure SwapResp where
  tx0 : SwapTxInfo
deriving DecidableEq

/- The transaction dictionaries built at swap.py lines 45-53 and 167-175;
   `toAddr` is the dictionary's "to" field (`to` is reserved in Lean). -/
structure Tx where
  nonce : Nat
  toAddr : String
  gasPrice : Nat
  gas : Nat
  data : String
  value : Nat
  chainId : Int
deriving DecidableEq

/- ------------------------------------------------------------------
   External call sites and trace events.
   ------------------------------------------------------------------ -/

/- The distinct external HTTP/RPC call sites of swap.py:
   approveFetch    line 22  okx_client.get_approve_transaction
   allowanceQuery  line 31  web3_helper.get_allowance
   approveGasPrice line 42  web3.eth.gas_price
   approveNonce    line 43  web3.eth.get_transaction_count
   approveSend     line 55  web3_helper.send_transaction
   receiptWait     line 147 web3.eth.wait_for_transaction_receipt
   decimalsQuery   line 84  web3_helper.get_token_decimals
   swapFetch       line 115 okx_client.get_swap
   swapNonce       line 165 web3.eth.get_transaction_count
   swapSend        line 178 web3_helper.send_transaction -/
inductive Site where
  | approveFetch
  | allowanceQuery
  | approveGasPrice
  | approveNonce
  | approveSend
  | receiptWait
  | decimalsQuery
  | swapFetch
  | swapNonce
  | swapSend
deriving DecidableEq

/- One external HTTP/RPC call, with its arguments.  The two call sites
   that share a collaborator function (nonce query, transaction send)
   carry their `Site` tag explicitly. -/
inductive Event where
  | getApproveTransaction (params : Dict)
  | getSwap (params : Dict)
  | getAllowance (tokenAddress ownerAddress spenderAddress : String)
  | gasPriceQuery
  | getTransactionCount (site : Site) (addr : String)
  | sendTransaction (site : Site) (tx : Tx) (key : String)
  | waitForReceipt (txHash : String)
  | getTokenDecimals (tokenAddress : String)
deriving DecidableEq

def Event.site : Event → Site
  | .getApproveTransaction _ => .approveFetch
  | .getSwap _ => .swapFetch
  | .getAllowance _ _ _ => .allowanceQuery
  | .gasPriceQuery => .approveGasPrice
  | .getTransactionCount s _ => s
  | .sendTransaction s _ _ => s
  | .waitForReceipt _ => .receiptWait
  | .getTokenDecimals _ => .decimalsQuery

/- ------------------------------------------------------------------
   The environment: external collaborators and configuration.
   ------------------------------------------------------------------ -/

/- External collaborators and configuration of a SwapService instance,
   for one fixed chain's Web3Helper.  Each field models one collaborator
   function; configuration mirrors config.settings. -/
structure Env where
  getApproveTransaction : Dict → Except Err ApproveResp
  getSwap : Dict → Except Err SwapResp
  getAllowance : String → String → String → Except Err Nat
  gasPrice : Except Err Nat
  getTransactionCount : String → Except Err Nat
  sendTransaction : Tx → String → Except Err String
  waitForTransactionReceipt : String → Except Err Unit
  getTokenDecimals : String → Except Err Nat
  parseTokenAmount : String → Nat → Nat
  nativeTokens : Int → Option Nat
  walletLookup : String → Option Wallet
  walletDefault : Wallet

/- ------------------------------------------------------------------
   Effect model: a produced trace of external calls plus an Except
   result (a raised exception propagates unchanged through bind).
   ------------------------------------------------------------------ -/

structure Res (α : Type) where
  trace : List Event
  result : Except Err α

def Res.pure {α : Type} (a : α) : Res α := ⟨[], .ok a⟩

def Res.fail {α : Type} (e : Err) : Res α := ⟨[], .error e⟩

def Res.bind {α β : Type} (x : Res α) (f : α → Res β) : Res β :=
  match x.result with
  | .error e => ⟨x.trace, .error e⟩
  | .ok a => ⟨x.trace ++ (f a).trace, (f a).result⟩

/- Perform one external call: record the event, return the result. -/
def call {α : Type} (ev : Event) (r : Except Err α) : Res α := ⟨[ev], r⟩

/- ------------------------------------------------------------------
   The SwapService methods.
   ------------------------------------------------------------------ -/

/- Python truthiness of an Optional[str]: None and "" are falsy. -/
def pyTruthyStr : Option String → Bool
  | none => false
  | some s => !s.isEmpty

/- Python str.lower() restricted to ASCII, which is exhaustive for the
   hex token addresses this comparison is applied to. -/
def pyLowerChar (ch : Char) : Char :=
  if 'A' ≤ ch ∧ ch ≤ 'Z' then Char.ofNat (ch.toNat + 32) else ch

def pyLower (s : String) : String := String.mk (s.data.map pyLowerChar)

/- The address, lowercased, that marks the chain's native token
   (swap.py lines 79 and 138). -/
def nativeTokenAddress : String := "0xeeeeeeeeeeeeeeeeeeeeeeeeeeeeeeeeeeeeeeee"

def isNativeToken (addr : String) : Bool := pyLower addr == nativeTokenAddress

/- The parameter dictionary of swap.py lines 22-26. -/
def buildApproveParams (chainId : Int) (tokenAddress : String) (amount : Nat) : Dict :=
  [("chainId", toString chainId),
   ("tokenContractAddress", tokenAddress),
   ("approveAmount", toString amount)]

/- The approval transaction dictionary of swap.py lines 45-53. -/
def buildApproveTransaction (nonce : Nat) (tokenAddress : String) (gasPrice : Nat)
    (txData : ApproveItem) (chainId : Int) : Tx :=
  { nonce := nonce
    toAddr := tokenAddress
    gasPrice := pyMul1_5 gasPrice
    gas := pyMul1_5 txData.gasLimit
    data := txData.data
    value := 0
    chainId := chainId }

/- SwapService.check_and_approve (swap.py lines 16-63).  The `amount`
   string parameter is the decimal representation of a nonnegative
   integer (execute_swap passes `str(parse_token_amount(...))`); it is
   modelled by that integer, so line 38's `int(amount)` is `amount` and
   line 25 carries `toString amount`.  Approval transactions are signed
   with the constructor's default wallet key (lines 14 and 55). -/
def checkAndApprove (env : Env) (chainId : Int) (tokenAddress ownerAddress : String)
    (amount : Nat) : Res (Option String) :=
  Res.bind (call (.getApproveTransaction (buildApproveParams chainId tokenAddress amount))
                 (env.getApproveTransaction (buildApproveParams chainId tokenAddress amount)))
    (fun approveData =>
  Res.bind (call (.getAllowance tokenAddress ownerAddress approveData.data0.spenderAddress)
                 (env.getAllowance tokenAddress ownerAddress approveData.data0.spenderAddress))
    (fun currentAllowance =>
  if currentAllowance < amount then
    Res.bind (call .gasPriceQuery env.gasPrice) (fun gasPrice =>
    Res.bind (call (.getTransactionCount .approveNonce ownerAddress)
                   (env.getTransactionCount ownerAddress)) (fun nonce =>
    Res.bind (call (.sendTransaction .approveSend
                      (buildApproveTransaction nonce tokenAddress gasPrice approveData.data0 chainId)
                      env.walletDefault.private_key)
                   (env.sendTransaction
                      (buildApproveTransaction nonce tokenAddress gasPrice approveData.data0 chainId)
                      env.walletDefault.private_key)) (fun txHash =>
    Res.pure (some txHash))))
  else Res.pure none))

/- SwapService._get_amount_in_wei (swap.py lines 65-89), as the integer
   it computes; the method returns its decimal string (line 86). -/
def getAmountInWeiNat (env : Env) (chainId : Int) (tokenAddress amount : String) : Res Nat :=
  if isNativeToken tokenAddress then
    match env.nativeTokens chainId with
    | none => Res.fail (.valueError s!"Unsupported chain ID: {chainId}")
    | some decimals => Res.pure (env.parseTokenAmount amount decimals)
  else
    Res.bind (call (.getTokenDecimals tokenAddress) (env.getTokenDecimals tokenAddress))
      (fun decimals => Res.pure (env.parseTokenAmount amount decimals))

/- SwapService._get_amount_in_wei's actual return value,
   `str(parse_token_amount(amount, decimals))`. -/
def getAmountInWei (env : Env) (chainId : Int) (tokenAddress amount : String) : Res String :=
  Res.bind (getAmountInWeiNat env chainId tokenAddress amount)
    (fun n => Res.pure (toString n))

/- The parameter dictionary of swap.py lines 101-112: the six fixed keys,
   then `**kwargs` merged in, then `swapReceiverAddress` set when
   `recipient_address` is truthy (a non-None, non-empty string). -/
def buildSwapParams (chainId : Int) (fromToken toToken rawAmount userAddress : String)
    (recipientAddress : Option String) (slippage : String) (kwargs : Dict) : Dict :=
  let params := dictMerge
    [("chainId", toString chainId),
     ("fromTokenAddress", fromToken),
     ("toTokenAddress", toToken),
     ("amount", rawAmount),
     ("userWalletAddress", userAddress),
     ("slippage", slippage)] kwargs
  match recipientAddress with
  | some r => if r.isEmpty then params else dictSet params "swapReceiverAddress" r
  | none => params

/- SwapService.create_swap_transaction (swap.py lines 91-122). -/
def createSwapTransaction (env : Env) (chainId : Int) (fromToken toToken amount userAddress : String)
    (recipientAddress : Option String) (slippage : String) (kwargs : Dict) : Res SwapResp :=
  Res.bind (getAmountInWei env chainId fromToken amount) (fun rawAmount =>
  call (.getSwap (buildSwapParams chainId fromToken toToken rawAmount userAddress
                    recipientAddress slippage kwargs))
       (env.getSwap (buildSwapParams chainId fromToken toToken rawAmount userAddress
                    recipientAddress slippage kwargs)))

/- The swap transaction dictionary of swap.py lines 167-175. -/
def buildSwapTx (nonce : Nat) (txInfo : SwapTxInfo) (chainId : Int) : Tx :=
  { nonce := nonce
    toAddr := txInfo.toAddr
    gasPrice := pyMul1_5 txInfo.gasPrice
    gas := pyMul1_5 txInfo.gas
    data := txInfo.data
    value := txInfo.value
    chainId := chainId }

/- Step 1 of execute_swap (swap.py lines 137-147): for an ERC20
   from-token, check/send the approval; `if approve_tx:` at line 146 is
   Python truthiness, so an empty-string hash skips the receipt wait. -/
def approvePhase (env : Env) (chainId : Int) (fromToken userAddress : String)
    (rawAmount : Nat) : Res Unit :=
  if isNativeToken fromToken then Res.pure ()
  else
    Res.bind (checkAndApprove env chainId fromToken userAddress rawAmount)
      (fun approveTx =>
        match approveTx with
        | some h =>
          if h.isEmpty then Res.pure ()
          else call (.waitForReceipt h) (env.waitForTransactionReceipt h)
        | none => Res.pure ())

/- Steps 2-4 of execute_swap (swap.py lines 149-180): fetch the swap
   quote/transaction, query the nonce, sign and broadcast. -/
def broadcastSwap (env : Env) (chainId : Int) (fromToken toToken amount userAddress : String)
    (recipientAddress : Option String) (slippage : String) (kwargs : Dict)
    (privateKey : String) : Res String :=
  Res.bind (createSwapTransaction env chainId fromToken toToken amount userAddress
              recipientAddress slippage kwargs) (fun swapData =>
  Res.bind (call (.getTransactionCount .swapNonce userAddress)
                 (env.getTransactionCount userAddress)) (fun nonce =>
  Res.bind (call (.sendTransaction .swapSend (buildSwapTx nonce swapData.tx0 chainId) privateKey)
                 (env.sendTransaction (buildSwapTx nonce swapData.tx0 chainId) privateKey))
    (fun txHash => Res.pure txHash)))

/- execute_swap's body once the wallet is resolved (swap.py lines 130-180):
   convert the amount (line 135), run the approval phase, then fetch and
   broadcast the swap signed with the resolved wallet's key. -/
def executeSwapCore (env : Env) (chainId : Int) (fromToken toToken amount : String)
    (recipientAddress : Option String) (slippage : String) (kwargs : Dict)
    (wallet : Wallet) : Res String :=
  Res.bind (getAmountInWeiNat env chainId fromToken amount) (fun rawAmount =>
  Res.bind (approvePhase env chainId fromToken wallet.address rawAmount) (fun _ =>
  broadcastSwap env chainId fromToken toToken amount wallet.address
    recipientAddress slippage kwargs wallet.private_key))

/- `WALLET_CONFIG.get(wallet_name, WALLET_CONFIG["default"])`
   (swap.py line 129). -/
def walletGet (env : Env) (walletName : String) : Wallet :=
  (env.walletLookup walletName).getD env.walletDefault

/- SwapService.execute_swap (swap.py lines 124-184). -/
def executeSwap (env : Env) (chainId : Int) (fromToken toToken amount : String)
    (recipientAddress : Option String) (slippage : String) (walletName : String)
    (kwargs : Dict) : Res String :=
  executeSwapCore env chainId fromToken toToken amount recipientAddress slippage kwargs
    (walletGet env walletName)

/- All possible outcomes of the final phase of execute_swap (fetch swap,
   query nonce, sign and send), given that `create_swap_transaction`'s
   internal amount conversion yields raw-amount string `raw` with trace
   `gtr`, and that the events `pre` have already been produced. -/
def TailSpec (env : Env) (c : Int) (ft tt amt u : String) (recip : Option String)
    (slip : String) (kw : Dict) (key : String) (pre gtr : List Event) (raw : String)
    (out : Res String) : Prop :=
  (∃ e, env.getSwap (buildSwapParams c ft tt raw u recip slip kw) = .error e ∧
    out = ⟨pre ++ gtr ++ [.getSwap (buildSwapParams c ft tt raw u recip slip kw)],
           .error e⟩) ∨
  (∃ sd, env.getSwap (buildSwapParams c ft tt raw u recip slip kw) = .ok sd ∧
    ((∃ e, env.getTransactionCount u = .error e ∧
       out = ⟨pre ++ gtr ++ [.getSwap (buildSwapParams c ft tt raw u recip slip kw),
               .getTransactionCount .swapNonce u], .error e⟩) ∨
     (∃ n, env.getTransactionCount u = .ok n ∧
       ((∃ e, env.sendTransaction (buildSwapTx n sd.tx0 c) key = .error e ∧
          out = ⟨pre ++ gtr ++ [.getSwap (buildSwapParams c ft tt raw u recip slip kw),
                  .getTransactionCount .swapNonce u,
                  .sendTransaction .swapSend (buildSwapTx n sd.tx0 c) key], .error e⟩) ∨
        (∃ hash, env.sendTransaction (buildSwapTx n sd.tx0 c) key = .ok hash ∧
          out = ⟨pre ++ gtr ++ [.getSwap (buildSwapParams c ft tt raw u recip slip kw),
                  .getTransactionCount .swapNonce u,
                  .sendTransaction .swapSend (buildSwapTx n sd.tx0 c) key], .ok hash⟩)))))

/- ------------------------------------------------------------------
   Concrete environments used by witnesses and counterexamples.
   ------------------------------------------------------------------ -/

def walletMain : Wallet := ⟨"0xUserAddress", "0xPrivKey"⟩

/- A fully succeeding environment: ERC20 allowance 0 (so approval runs),
   all calls succeed, chain 1 configured with 18 native decimals. -/
def envBase : Env :=
  { getApproveTransaction := fun _ => .ok ⟨⟨"0xSpender", 60000, "0xapprovecalldata"⟩⟩,
    getSwap := fun _ => .ok ⟨⟨"0xRouter", 30, 21000, "0xswapcalldata", 0⟩⟩,
    getAllowance := fun _ _ _ => .ok 0,
    gasPrice := .ok 100,
    getTransactionCount := fun _ => .ok 7,
    sendTransaction := fun _ _ => .ok "0xhash",
    waitForTransactionReceipt := fun _ => .ok (),
    getTokenDecimals := fun _ => .ok 6,
    parseTokenAmount := fun _ _ => 1000000,
    nativeTokens := fun i => if i = 1 then some 18 else none,
    walletLookup := fun s => if s = "default" then some walletMain else none,
    walletDefault := walletMain }

/- ------------------------------------------------------------------
   Error attribution and call-site counting.
   ------------------------------------------------------------------ -/

def errOf {α : Type} : Except Err α → Option Err
  | .error e => some e
  | .ok _ => none

/- The error (if any) that the environment produces for a recorded call. -/
def evErr (env : Env) : Event → Option Err
  | .getApproveTransaction p => errOf (env.getApproveTransaction p)
  | .getSwap p => errOf (env.getSwap p)
  | .getAllowance t o s => errOf (env.getAllowance t o s)
  | .gasPriceQuery => errOf env.gasPrice
  | .getTransactionCount _ a => errOf (env.getTransactionCount a)
  | .sendTransaction _ tx k => errOf (env.sendTransaction tx k)
  | .waitForReceipt h => errOf (env.waitForTransactionReceipt h)
  | .getTokenDecimals t => errOf (env.getTokenDecimals t)

/- How many events of a trace come from a given source call site. -/
def countSite (t : List Event) (s : Site) : Nat := (t.map Event.site).count s

/- The canonical order of all ten call sites in one execute_swap run. -/
def fullSites : List Site :=
  [.decimalsQuery, .approveFetch, .allowanceQuery, .approveGasPrice, .approveNonce,
   .approveSend, .receiptWait, .decimalsQuery, .swapFetch, .swapNonce, .swapSend]

/- Environment in which the node returns an empty-string hash for the
   approval broadcast (and "0xswap" for the swap broadcast). -/
def envEmptyHash : Env :=
  { envBase with
    sendTransaction := fun tx _ =>
      if tx.data = "0xapprovecalldata" then .ok "" else .ok "0xswap" }

/- Environment in which the aggregator's swap-quote call fails. -/
def envFailSwap : Env :=
  { envBase with getSwap := fun _ => .error (.callFail "boom") }

/- ------------------------------------------------------------------
   Reduction lemmas for the effect model.
   ------------------------------------------------------------------ -/

lemma bind_call_ok {α β : Type} {r : Except Err α} {a : α} (ev : Event) (h : r = .ok a)
    (f : α → Res β) : Res.bind (call ev r) f = ⟨ev :: (f a).trace, (f a).result⟩ := by
  subst h; rfl

lemma bind_call_error {α β : Type} {r : Except Err α} {e : Err} (ev : Event) (h : r = .error e)
    (f : α → Res β) : Res.bind (call ev r) f = ⟨[ev], .error e⟩ := by
  subst h; rfl

lemma bind_mk_ok {α β : Type} (t : List Event) (a : α) (f : α → Res β) :
    Res.bind ⟨t, .ok a⟩ f = ⟨t ++ (f a).trace, (f a).result⟩ := rfl

lemma bind_mk_error {α β : Type} (t : List Event) (e : Err) (f : α → Res β) :
    Res.bind ⟨t, .error e⟩ f = ⟨t, .error e⟩ := rfl

lemma res_bind_pure {α β : Type} (a : α) (f : α → Res β) :
    Res.bind (Res.pure a) f = f a := rfl

/- ------------------------------------------------------------------
   Outcome lemmas: check_and_approve.
   ------------------------------------------------------------------ -/

lemma caa_err_fetch {env : Env} {c : Int} {t o : String} {a : Nat} {e : Err}
    (h1 : env.getApproveTransaction (buildApproveParams c t a) = .error e) :
    checkAndApprove env c t o a =
      ⟨[.getApproveTransaction (buildApproveParams c t a)], .error e⟩ := by
  unfold checkAndApprove
  rw [bind_call_error _ h1]

lemma caa_err_allowance {env : Env} {c : Int} {t o : String} {a : Nat}
    {ad : ApproveResp} {e : Err}
    (h1 : env.getApproveTransaction (buildApproveParams c t a) = .ok ad)
    (h2 : env.getAllowance t o ad.data0.spenderAddress = .error e) :
    checkAndApprove env c t o a =
      ⟨[.getApproveTransaction (buildApproveParams c t a),
        .getAllowance t o ad.data0.spenderAddress], .error e⟩ := by
  unfold checkAndApprove
  rw [bind_call_ok _ h1, bind_call_error _ h2]

lemma caa_ok_none {env : Env} {c : Int} {t o : String} {a : Nat}
    {ad : ApproveResp} {al : Nat}
    (h1 : env.getApproveTransaction (buildApproveParams c t a) = .ok ad)
    (h2 : env.getAllowance t o ad.data0.spenderAddress = .ok al)
    (h3 : ¬ al < a) :
    checkAndApprove env c t o a =
      ⟨[.getApproveTransaction (buildApproveParams c t a),
        .getAllowance t o ad.data0.spenderAddress], .ok none⟩ := by
  unfold checkAndApprove
  rw [bind_call_ok _ h1, bind_call_ok _ h2, if_neg h3]
  rfl

lemma caa_err_gasPrice {env : Env} {c : Int} {t o : String} {a : Nat}
    {ad : ApproveResp} {al : Nat} {e : Err}
    (h1 : env.getApproveTransaction (buildApproveParams c t a) = .ok ad)
    (h2 : env.getAllowance t o ad.data0.spenderAddress = .ok al)
    (h3 : al < a)
    (h4 : env.gasPrice = .error e) :
    checkAndApprove env c t o a =
      ⟨[.getApproveTransaction (buildApproveParams c t a),
        .getAllowance t o ad.data0.spenderAddress,
        .gasPriceQuery], .error e⟩ := by
  unfold checkAndApprove
  rw [bind_call_ok _ h1, bind_call_ok _ h2, if_pos h3, bind_call_error _ h4]

lemma caa_err_nonce {env : Env} {c : Int} {t o : String} {a : Nat}
    {ad : ApproveResp} {al gp : Nat} {e : Err}
    (h1 : env.getApproveTransaction (buildApproveParams c t a) = .ok ad)
    (h2 : env.getAllowance t o ad.data0.spenderAddress = .ok al)
    (h3 : al < a)
    (h4 : env.gasPrice = .ok gp)
    (h5 : env.getTransactionCount o = .error e) :
    checkAndApprove env c t o a =
      ⟨[.getApproveTransaction (buildApproveParams c t a),
        .getAllowance t o ad.data0.spenderAddress,
        .gasPriceQuery,
        .getTransactionCount .approveNonce o], .error e⟩ := by
  unfold checkAndApprove
  rw [bind_call_ok _ h1, bind_call_ok _ h2, if_pos h3, bind_call_ok _ h4,
      bind_call_error _ h5]

lemma caa_err_send {env : Env} {c : Int} {t o : String} {a : Nat}
    {ad : ApproveResp} {al gp n : Nat} {e : Err}
    (h1 : env.getApproveTransaction (buildApproveParams c t a) = .ok ad)
    (h2 : env.getAllowance t o ad.data0.spenderAddress = .ok al)
    (h3 : al < a)
    (h4 : env.gasPrice = .ok gp)
    (h5 : env.getTransactionCount o = .ok n)
    (h6 : env.sendTransaction (buildApproveTransaction n t gp ad.data0 c)
            env.walletDefault.private_key = .error e) :
    checkAndApprove env c t o a =
      ⟨[.getApproveTransaction (buildApproveParams c t a),
        .getAllowance t o ad.data0.spenderAddress,
        .gasPriceQuery,
        .getTransactionCount .approveNonce o,
        .sendTransaction .approveSend (buildApproveTransaction n t gp ad.data0 c)
          env.walletDefault.private_key], .error e⟩ := by
  unfold checkAndApprove
  rw [bind_call_ok _ h1, bind_call_ok _ h2, if_pos h3, bind_call_ok _ h4,
      bind_call_ok _ h5, bind_call_error _ h6]

lemma caa_ok_send {env : Env} {c : Int} {t o : String} {a : Nat}
    {ad : ApproveResp} {al gp n : Nat} {hash : String}
    (h1 : env.getApproveTransaction (buildApproveParams c t a) = .ok ad)
    (h2 : env.getAllowance t o ad.data0.spenderAddress = .ok al)
    (h3 : al < a)
    (h4 : env.gasPrice = .ok gp)
    (h5 : env.getTransactionCount o = .ok n)
    (h6 : env.sendTransaction (buildApproveTransaction n t gp ad.data0 c)
            env.walletDefault.private_key = .ok hash) :
    checkAndApprove env c t o a =
      ⟨[.getApproveTransaction (buildApproveParams c t a),
        .getAllowance t o ad.data0.spenderAddress,
        .gasPriceQuery,
        .getTransactionCount .approveNonce o,
        .sendTransaction .approveSend (buildApproveTransaction n t gp ad.data0 c)
          env.walletDefault.private_key], .ok (some hash)⟩ := by
  unfold checkAndApprove
  rw [bind_call_ok _ h1, bind_call_ok _ h2, if_pos h3, bind_call_ok _ h4,
      bind_call_ok _ h5, bind_call_ok _ h6]
  rfl

/- ------------------------------------------------------------------
   Outcome lemmas: _get_amount_in_wei.
   ------------------------------------------------------------------ -/

lemma gaiw_native_none {env : Env} {c : Int} {t amt : String}
    (hN : isNativeToken t = true) (hc : env.nativeTokens c = none) :
    getAmountInWeiNat env c t amt =
      ⟨[], .error (.valueError s!"Unsupported chain ID: {c}")⟩ := by
  unfold getAmountInWeiNat
  rw [hN, hc]
  rfl

lemma gaiw_native_some {env : Env} {c : Int} {t amt : String} {d : Nat}
    (hN : isNativeToken t = true) (hc : env.nativeTokens c = some d) :
    getAmountInWeiNat env c t amt = ⟨[], .ok (env.parseTokenAmount amt d)⟩ := by
  unfold getAmountInWeiNat
  rw [hN, hc]
  rfl

lemma gaiw_erc20_err {env : Env} {c : Int} {t amt : String} {e : Err}
    (hN : isNativeToken t = false) (hd : env.getTokenDecimals t = .error e) :
    getAmountInWeiNat env c t amt = ⟨[.getTokenDecimals t], .error e⟩ := by
  unfold getAmountInWeiNat
  rw [hN]
  rw [bind_call_error _ hd]
  rfl

lemma gaiw_erc20_ok {env : Env} {c : Int} {t amt : String} {d : Nat}
    (hN : isNativeToken t = false) (hd : env.getTokenDecimals t = .ok d) :
    getAmountInWeiNat env c t amt =
      ⟨[.getTokenDecimals t], .ok (env.parseTokenAmount amt d)⟩ := by
  unfold getAmountInWeiNat
  rw [hN]
  rw [bind_call_ok _ hd]
  rfl

lemma gaiwS_of_nat_ok {env : Env} {c : Int} {t amt : String} {tr : List Event} {n : Nat}
    (h : getAmountInWeiNat env c t amt = ⟨tr, .ok n⟩) :
    getAmountInWei env c t amt = ⟨tr, .ok (toString n)⟩ := by
  unfold getAmountInWei
  rw [h, bind_mk_ok]
  simp [Res.pure]

lemma gaiwS_of_nat_err {env : Env} {c : Int} {t amt : String} {tr : List Event} {e : Err}
    (h : getAmountInWeiNat env c t amt = ⟨tr, .error e⟩) :
    getAmountInWei env c t amt = ⟨tr, .error e⟩ := by
  unfold getAmountInWei
  rw [h, bind_mk_error]

/- ------------------------------------------------------------------
   Outcome lemmas: create_swap_transaction.
   ------------------------------------------------------------------ -/

lemma cst_of_amount_err {env : Env} {c : Int} {ft tt amt u : String}
    {recip : Option String} {slip : String} {kw : Dict} {tr : List Event} {e : Err}
    (h : getAmountInWei env c ft amt = ⟨tr, .error e⟩) :
    createSwapTransaction env c ft tt amt u recip slip kw = ⟨tr, .error e⟩ := by
  unfold createSwapTransaction
  rw [h, bind_mk_error]

lemma cst_err_swap {env : Env} {c : Int} {ft tt amt u : String}
    {recip : Option String} {slip : String} {kw : Dict} {tr : List Event}
    {raw : String} {e : Err}
    (h : getAmountInWei env c ft amt = ⟨tr, .ok raw⟩)
    (hs : env.getSwap (buildSwapParams c ft tt raw u recip slip kw) = .error e) :
    createSwapTransaction env c ft tt amt u recip slip kw =
      ⟨tr ++ [.getSwap (buildSwapParams c ft tt raw u recip slip kw)], .error e⟩ := by
  unfold createSwapTransaction
  rw [h, bind_mk_ok, hs]
  rfl

lemma cst_ok_swap {env : Env} {c : Int} {ft tt amt u : String}
    {recip : Option String} {slip : String} {kw : Dict} {tr : List Event}
    {raw : String} {sd : SwapResp}
    (h : getAmountInWei env c ft amt = ⟨tr, .ok raw⟩)
    (hs : env.getSwap (buildSwapParams c ft tt raw u recip slip kw) = .ok sd) :
    createSwapTransaction env c ft tt amt u recip slip kw =
      ⟨tr ++ [.getSwap (buildSwapParams c ft tt raw u recip slip kw)], .ok sd⟩ := by
  unfold createSwapTransaction
  rw [h, bind_mk_ok, hs]
  rfl

/- ------------------------------------------------------------------
   Outcome lemmas: the approval phase of execute_swap.
   ------------------------------------------------------------------ -/

lemma ap_native {env : Env} {c : Int} {ft u : String} {ra : Nat}
    (hN : isNativeToken ft = true) :
    approvePhase env c ft u ra = ⟨[], .ok ()⟩ := by
  unfold approvePhase
  rw [hN]
  rfl

lemma ap_of_caa_err {env : Env} {c : Int} {ft u : String} {ra : Nat}
    {tr : List Event} {e : Err}
    (hN : isNativeToken ft = false)
    (h : checkAndApprove env c ft u ra = ⟨tr, .error e⟩) :
    approvePhase env c ft u ra = ⟨tr, .error e⟩ := by
  unfold approvePhase
  rw [hN]
  rw [h, bind_mk_error]
  rfl

lemma ap_none {env : Env} {c : Int} {ft u : String} {ra : Nat} {tr : List Event}
    (hN : isNativeToken ft = false)
    (h : checkAndApprove env c ft u ra = ⟨tr, .ok none⟩) :
    approvePhase env c ft u ra = ⟨tr, .ok ()⟩ := by
  unfold approvePhase
  rw [hN]
  rw [h, bind_mk_ok]
  simp [Res.pure]

lemma ap_some_empty {env : Env} {c : Int} {ft u : String} {ra : Nat}
    {tr : List Event} {hash : String}
    (hN : isNativeToken ft = false)
    (h : checkAndApprove env c ft u ra = ⟨tr, .ok (some hash)⟩)
    (he : hash.isEmpty = true) :
    approvePhase env c ft u ra = ⟨tr, .ok ()⟩ := by
  unfold approvePhase
  rw [hN]
  rw [h, bind_mk_ok]
  simp [he, Res.pure]

lemma ap_some_wait_err {env : Env} {c : Int} {ft u : String} {ra : Nat}
    {tr : List Event} {hash : String} {e : Err}
    (hN : isNativeToken ft = false)
    (h : checkAndApprove env c ft u ra = ⟨tr, .ok (some hash)⟩)
    (he : hash.isEmpty = false)
    (hw : env.waitForTransactionReceipt hash = .error e) :
    approvePhase env c ft u ra = ⟨tr ++ [.waitForReceipt hash], .error e⟩ := by
  unfold approvePhase
  rw [hN]
  rw [h, bind_mk_ok]
  simp [he, hw, call]

lemma ap_some_wait_ok {env : Env} {c : Int} {ft u : String} {ra : Nat}
    {tr : List Event} {hash : String}
    (hN : isNativeToken ft = false)
    (h : checkAndApprove env c ft u ra = ⟨tr, .ok (some hash)⟩)
    (he : hash.isEmpty = false)
    (hw : env.waitForTransactionReceipt hash = .ok ()) :
    approvePhase env c ft u ra = ⟨tr ++ [.waitForReceipt hash], .ok ()⟩ := by
  unfold approvePhase
  rw [hN]
  rw [h, bind_mk_ok]
  simp [he, hw, call]

/- ------------------------------------------------------------------
   Outcome lemmas: the broadcast phase of execute_swap.
   ------------------------------------------------------------------ -/

lemma bs_of_cst_err {env : Env} {c : Int} {ft tt amt u : String}
    {recip : Option String} {slip : String} {kw : Dict} {key : String}
    {tr : List Event} {e : Err}
    (h : createSwapTransaction env c ft tt amt u recip slip kw = ⟨tr, .error e⟩) :
    broadcastSwap env c ft tt amt u recip slip kw key = ⟨tr, .error e⟩ := by
  unfold broadcastSwap
  rw [h, bind_mk_error]

lemma bs_err_nonce {env : Env} {c : Int} {ft tt amt u : String}
    {recip : Option String} {slip : String} {kw : Dict} {key : String}
    {tr : List Event} {sd : SwapResp} {e : Err}
    (h : createSwapTransaction env c ft tt amt u recip slip kw = ⟨tr, .ok sd⟩)
    (hn : env.getTransactionCount u = .error e) :
    broadcastSwap env c ft tt amt u recip slip kw key =
      ⟨tr ++ [.getTransactionCount .swapNonce u], .error e⟩ := by
  unfold broadcastSwap
  rw [h, bind_mk_ok, bind_call_error _ hn]

lemma bs_err_send {env : Env} {c : Int} {ft tt amt u : String}
    {recip : Option String} {slip : String} {kw : Dict} {key : String}
    {tr : List Event} {sd : SwapResp} {n : Nat} {e : Err}
    (h : createSwapTransaction env c ft tt amt u recip slip kw = ⟨tr, .ok sd⟩)
    (hn : env.getTransactionCount u = .ok n)
    (hs : env.sendTransaction (buildSwapTx n sd.tx0 c) key = .error e) :
    broadcastSwap env c ft tt amt u recip slip kw key =
      ⟨tr ++ [.getTransactionCount .swapNonce u,
              .sendTransaction .swapSend (buildSwapTx n sd.tx0 c) key], .error e⟩ := by
  unfold broadcastSwap
  rw [h, bind_mk_ok, bind_call_ok _ hn, bind_call_error _ hs]

lemma bs_ok {env : Env} {c : Int} {ft tt amt u : String}
    {recip : Option String} {slip : String} {kw : Dict} {key : String}
    {tr : List Event} {sd : SwapResp} {n : Nat} {hash : String}
    (h : createSwapTransaction env c ft tt amt u recip slip kw = ⟨tr, .ok sd⟩)
    (hn : env.getTransactionCount u = .ok n)
    (hs : env.sendTransaction (buildSwapTx n sd.tx0 c) key = .ok hash) :
    broadcastSwap env c ft tt amt u recip slip kw key =
      ⟨tr ++ [.getTransactionCount .swapNonce u,
              .sendTransaction .swapSend (buildSwapTx n sd.tx0 c) key], .ok hash⟩ := by
  unfold broadcastSwap
  rw [h, bind_mk_ok, bind_call_ok _ hn, bind_call_ok _ hs]
  rfl

/- ------------------------------------------------------------------
   Outcome lemmas: execute_swap composition.
   ------------------------------------------------------------------ -/

lemma esc_of_amount_err {env : Env} {c : Int} {ft tt amt : String}
    {recip : Option String} {slip : String} {kw : Dict} {w : Wallet}
    {tr : List Event} {e : Err}
    (h : getAmountInWeiNat env c ft amt = ⟨tr, .error e⟩) :
    executeSwapCore env c ft tt amt recip slip kw w = ⟨tr, .error e⟩ := by
  unfold executeSwapCore
  rw [h, bind_mk_error]

lemma esc_of_phase_err {env : Env} {c : Int} {ft tt amt : String}
    {recip : Option String} {slip : String} {kw : Dict} {w : Wallet}
    {t1 t2 : List Event} {ra : Nat} {e : Err}
    (h1 : getAmountInWeiNat env c ft amt = ⟨t1, .ok ra⟩)
    (h2 : approvePhase env c ft w.address ra = ⟨t2, .error e⟩) :
    executeSwapCore env c ft tt amt recip slip kw w = ⟨t1 ++ t2, .error e⟩ := by
  unfold executeSwapCore
  rw [h1, bind_mk_ok, h2, bind_mk_error]

lemma esc_of_phases {env : Env} {c : Int} {ft : String} (tt : String) {amt : String}
    (recip : Option String) (slip : String) (kw : Dict) {w : Wallet}
    {t1 t2 : List Event} {ra : Nat}
    (h1 : getAmountInWeiNat env c ft amt = ⟨t1, .ok ra⟩)
    (h2 : approvePhase env c ft w.address ra = ⟨t2, .ok ()⟩) :
    executeSwapCore env c ft tt amt recip slip kw w =
      ⟨t1 ++ (t2 ++ (broadcastSwap env c ft tt amt w.address recip slip kw
                       w.private_key).trace),
       (broadcastSwap env c ft tt amt w.address recip slip kw w.private_key).result⟩ := by
  unfold executeSwapCore
  rw [h1, bind_mk_ok, h2, bind_mk_ok]

/- ------------------------------------------------------------------
   Full symbolic execution of execute_swap.
   ------------------------------------------------------------------ -/

lemma tail_cases {env : Env} {c : Int} {ft tt amt u : String} {recip : Option String}
    {slip : String} {kw : Dict} {key : String} {gtr : List Event} {raw : String}
    (h : getAmountInWei env c ft amt = ⟨gtr, .ok raw⟩) (pre : List Event) :
    TailSpec env c ft tt amt u recip slip kw key pre gtr raw
      ⟨pre ++ (broadcastSwap env c ft tt amt u recip slip kw key).trace,
       (broadcastSwap env c ft tt amt u recip slip kw key).result⟩ := by
  unfold TailSpec
  cases hs : env.getSwap (buildSwapParams c ft tt raw u recip slip kw) with
  | error e =>
    left
    exact ⟨e, rfl, by rw [bs_of_cst_err (cst_err_swap h hs)]; simp⟩
  | ok sd =>
    right
    refine ⟨sd, rfl, ?_⟩
    cases hn : env.getTransactionCount u with
    | error e =>
      left
      exact ⟨e, rfl, by rw [bs_err_nonce (cst_ok_swap h hs) hn]; simp⟩
    | ok n =>
      right
      refine ⟨n, rfl, ?_⟩
      cases hsend : env.sendTransaction (buildSwapTx n sd.tx0 c) key with
      | error e =>
        left
        exact ⟨e, rfl, by rw [bs_err_send (cst_ok_swap h hs) hn hsend]; simp⟩
      | ok hash =>
        right
        exact ⟨hash, rfl, by rw [bs_ok (cst_ok_swap h hs) hn hsend]; simp⟩

/- Complete case analysis of execute_swap's body (after wallet
   resolution): every invocation falls into exactly one of the listed
   scenarios, each with its explicit event trace and result. -/
theorem executeSwapCore_spec (env : Env) (c : Int) (ft tt amt : String)
    (recip : Option String) (slip : String) (kw : Dict) (w : Wallet) :
    (isNativeToken ft = true ∧
      ((env.nativeTokens c = none ∧
         executeSwapCore env c ft tt amt recip slip kw w =
           ⟨[], .error (.valueError s!"Unsupported chain ID: {c}")⟩) ∨
       (∃ d, env.nativeTokens c = some d ∧
         TailSpec env c ft tt amt w.address recip slip kw w.private_key [] []
           (toString (env.parseTokenAmount amt d))
           (executeSwapCore env c ft tt amt recip slip kw w)))) ∨
    (isNativeToken ft = false ∧
      ((∃ e, env.getTokenDecimals ft = .error e ∧
         executeSwapCore env c ft tt amt recip slip kw w =
           ⟨[.getTokenDecimals ft], .error e⟩) ∨
       (∃ d, env.getTokenDecimals ft = .ok d ∧
         ((∃ e, env.getApproveTransaction
                  (buildApproveParams c ft (env.parseTokenAmount amt d)) = .error e ∧
            executeSwapCore env c ft tt amt recip slip kw w =
              ⟨[.getTokenDecimals ft,
                .getApproveTransaction (buildApproveParams c ft (env.parseTokenAmount amt d))],
               .error e⟩) ∨
          (∃ ad, env.getApproveTransaction
                   (buildApproveParams c ft (env.parseTokenAmount amt d)) = .ok ad ∧
            ((∃ e, env.getAllowance ft w.address ad.data0.spenderAddress = .error e ∧
               executeSwapCore env c ft tt amt recip slip kw w =
                 ⟨[.getTokenDecimals ft,
                   .getApproveTransaction (buildApproveParams c ft (env.parseTokenAmount amt d)),
                   .getAllowance ft w.address ad.data0.spenderAddress], .error e⟩) ∨
             (∃ a0, env.getAllowance ft w.address ad.data0.spenderAddress = .ok a0 ∧
               ((¬ a0 < env.parseTokenAmount amt d ∧
                  TailSpec env c ft tt amt w.address recip slip kw w.private_key
                    [.getTokenDecimals ft,
                     .getApproveTransaction (buildApproveParams c ft (env.parseTokenAmount amt d)),
                     .getAllowance ft w.address ad.data0.spenderAddress]
                    [.getTokenDecimals ft]
                    (toString (env.parseTokenAmount amt d))
                    (executeSwapCore env c ft tt amt recip slip kw w)) ∨
                (a0 < env.parseTokenAmount amt d ∧
                  ((∃ e, env.gasPrice = .error e ∧
                     executeSwapCore env c ft tt amt recip slip kw w =
                       ⟨[.getTokenDecimals ft,
                         .getApproveTransaction (buildApproveParams c ft (env.parseTokenAmount amt d)),
                         .getAllowance ft w.address ad.data0.spenderAddress,
                         .gasPriceQuery], .error e⟩) ∨
                   (∃ gp, env.gasPrice = .ok gp ∧
                     ((∃ e, env.getTransactionCount w.address = .error e ∧
                        executeSwapCore env c ft tt amt recip slip kw w =
                          ⟨[.getTokenDecimals ft,
                            .getApproveTransaction (buildApproveParams c ft (env.parseTokenAmount amt d)),
                            .getAllowance ft w.address ad.data0.spenderAddress,
                            .gasPriceQuery,
                            .getTransactionCount .approveNonce w.address], .error e⟩) ∨
                      (∃ n1, env.getTransactionCount w.address = .ok n1 ∧
                        ((∃ e, env.sendTransaction
                                 (buildApproveTransaction n1 ft gp ad.data0 c)
                                 env.walletDefault.private_key = .error e ∧
                           executeSwapCore env c ft tt amt recip slip kw w =
                             ⟨[.getTokenDecimals ft,
                               .getApproveTransaction (buildApproveParams c ft (env.parseTokenAmount amt d)),
                               .getAllowance ft w.address ad.data0.spenderAddress,
                               .gasPriceQuery,
                               .getTransactionCount .approveNonce w.address,
                               .sendTransaction .approveSend
                                 (buildApproveTransaction n1 ft gp ad.data0 c)
                                 env.walletDefault.private_key], .error e⟩) ∨
                         (∃ h1, env.sendTransaction
                                  (buildApproveTransaction n1 ft gp ad.data0 c)
                                  env.walletDefault.private_key = .ok h1 ∧
                           ((h1.isEmpty = true ∧
                              TailSpec env c ft tt amt w.address recip slip kw w.private_key
                                [.getTokenDecimals ft,
                                 .getApproveTransaction (buildApproveParams c ft (env.parseTokenAmount amt d)),
                                 .getAllowance ft w.address ad.data0.spenderAddress,
                                 .gasPriceQuery,
                                 .getTransactionCount .approveNonce w.address,
                                 .sendTransaction .approveSend
                                   (buildApproveTransaction n1 ft gp ad.data0 c)
                                   env.walletDefault.private_key]
                                [.getTokenDecimals ft]
                                (toString (env.parseTokenAmount amt d))
                                (executeSwapCore env c ft tt amt recip slip kw w)) ∨
                            (h1.isEmpty = false ∧
                              ((∃ e, env.waitForTransactionReceipt h1 = .error e ∧
                                 executeSwapCore env c ft tt amt recip slip kw w =
                                   ⟨[.getTokenDecimals ft,
                                     .getApproveTransaction (buildApproveParams c ft (env.parseTokenAmount amt d)),
                                     .getAllowance ft w.address ad.data0.spenderAddress,
                                     .gasPriceQuery,
                                     .getTransactionCount .approveNonce w.address,
                                     .sendTransaction .approveSend
                                       (buildApproveTransaction n1 ft gp ad.data0 c)
                                       env.walletDefault.private_key,
                                     .waitForReceipt h1], .error e⟩) ∨
                               (env.waitForTransactionReceipt h1 = .ok () ∧
                                 TailSpec env c ft tt amt w.address recip slip kw w.private_key
                                   [.getTokenDecimals ft,
                                    .getApproveTransaction (buildApproveParams c ft (env.parseTokenAmount amt d)),
                                    .getAllowance ft w.address ad.data0.spenderAddress,
                                    .gasPriceQuery,
                                    .getTransactionCount .approveNonce w.address,
                                    .sendTransaction .approveSend
                                      (buildApproveTransaction n1 ft gp ad.data0 c)
                                      env.walletDefault.private_key,
                                    .waitForReceipt h1]
                                   [.getTokenDecimals ft]
                                   (toString (env.parseTokenAmount amt d))
                                   (executeSwapCore env c ft tt amt recip slip kw w)))))))))))))))))))) := by
  by_cases hN : isNativeToken ft = true
  · left
    refine ⟨hN, ?_⟩
    cases hc : env.nativeTokens c with
    | none =>
      left
      exact ⟨rfl, esc_of_amount_err (gaiw_native_none hN hc)⟩
    | some d =>
      right
      refine ⟨d, rfl, ?_⟩
      have hg : getAmountInWeiNat env c ft amt = ⟨[], .ok (env.parseTokenAmount amt d)⟩ :=
        gaiw_native_some hN hc
      have hesc := esc_of_phases (w := w) tt recip slip kw hg (ap_native hN)
      rw [hesc]
      simpa using tail_cases (gaiwS_of_nat_ok hg) []
  · right
    rw [Bool.not_eq_true] at hN
    refine ⟨hN, ?_⟩
    cases hdq : env.getTokenDecimals ft with
    | error e =>
      left
      exact ⟨e, rfl, esc_of_amount_err (gaiw_erc20_err hN hdq)⟩
    | ok d =>
      right
      refine ⟨d, rfl, ?_⟩
      have hg : getAmountInWeiNat env c ft amt =
          ⟨[.getTokenDecimals ft], .ok (env.parseTokenAmount amt d)⟩ :=
        gaiw_erc20_ok hN hdq
      cases haf : env.getApproveTransaction (buildApproveParams c ft (env.parseTokenAmount amt d)) with
      | error e =>
        left
        exact ⟨e, rfl, by
          rw [esc_of_phase_err hg (ap_of_caa_err hN (caa_err_fetch haf))]
          rfl⟩
      | ok ad =>
        right
        refine ⟨ad, rfl, ?_⟩
        cases hal : env.getAllowance ft w.address ad.data0.spenderAddress with
        | error e =>
          left
          exact ⟨e, rfl, by
            rw [esc_of_phase_err hg (ap_of_caa_err hN (caa_err_allowance haf hal))]
            rfl⟩
        | ok a0 =>
          right
          refine ⟨a0, rfl, ?_⟩
          by_cases hlt : a0 < env.parseTokenAmount amt d
          · right
            refine ⟨hlt, ?_⟩
            cases hgp : env.gasPrice with
            | error e =>
              left
              exact ⟨e, rfl, by
                rw [esc_of_phase_err hg (ap_of_caa_err hN (caa_err_gasPrice haf hal hlt hgp))]
                rfl⟩
            | ok gp =>
              right
              refine ⟨gp, rfl, ?_⟩
              cases hn1 : env.getTransactionCount w.address with
              | error e =>
                left
                exact ⟨e, rfl, by
                  rw [esc_of_phase_err hg (ap_of_caa_err hN (caa_err_nonce haf hal hlt hgp hn1))]
                  rfl⟩
              | ok n1 =>
                right
                refine ⟨n1, rfl, ?_⟩
                cases hsd : env.sendTransaction (buildApproveTransaction n1 ft gp ad.data0 c)
                    env.walletDefault.private_key with
                | error e =>
                  left
                  exact ⟨e, rfl, by
                    rw [esc_of_phase_err hg
                      (ap_of_caa_err hN (caa_err_send haf hal hlt hgp hn1 hsd))]
                    rfl⟩
                | ok h1 =>
                  right
                  refine ⟨h1, rfl, ?_⟩
                  by_cases hem : h1.isEmpty = true
                  · left
                    refine ⟨hem, ?_⟩
                    have hesc := esc_of_phases tt recip slip kw hg
                      (ap_some_empty hN (caa_ok_send haf hal hlt hgp hn1 hsd) hem)
                    rw [hesc]
                    simpa [List.append_assoc] using
                      tail_cases (gaiwS_of_nat_ok hg)
                        ([.getTokenDecimals ft,
                          .getApproveTransaction (buildApproveParams c ft (env.parseTokenAmount amt d)),
                          .getAllowance ft w.address ad.data0.spenderAddress,
                          .gasPriceQuery,
                          .getTransactionCount .approveNonce w.address,
                          .sendTransaction .approveSend
                            (buildApproveTransaction n1 ft gp ad.data0 c)
                            env.walletDefault.private_key])
                  · right
                    rw [Bool.not_eq_true] at hem
                    refine ⟨hem, ?_⟩
                    cases hw : env.waitForTransactionReceipt h1 with
                    | error e =>
                      left
                      refine ⟨e, rfl, ?_⟩
                      rw [esc_of_phase_err hg
                        (ap_some_wait_err hN (caa_ok_send haf hal hlt hgp hn1 hsd) hem hw)]
                      simp
                    | ok u =>
                      right
                      refine ⟨rfl, ?_⟩
                      have hesc := esc_of_phases tt recip slip kw hg
                        (ap_some_wait_ok hN (caa_ok_send haf hal hlt hgp hn1 hsd) hem hw)
                      rw [hesc]
                      simpa [List.append_assoc] using
                        tail_cases (gaiwS_of_nat_ok hg)
                          ([.getTokenDecimals ft,
                            .getApproveTransaction (buildApproveParams c ft (env.parseTokenAmount amt d)),
                            .getAllowance ft w.address ad.data0.spenderAddress,
                            .gasPriceQuery,
                            .getTransactionCount .approveNonce w.address,
                            .sendTransaction .approveSend
                              (buildApproveTransaction n1 ft gp ad.data0 c)
                              env.walletDefault.private_key,
                            .waitForReceipt h1])
          · left
            refine ⟨hlt, ?_⟩
            have hesc := esc_of_phases tt recip slip kw hg
              (ap_none hN (caa_ok_none haf hal hlt))
            rw [hesc]
            simpa [List.append_assoc] using
              tail_cases (gaiwS_of_nat_ok hg)
                ([.getTokenDecimals ft,
                  .getApproveTransaction (buildApproveParams c ft (env.parseTokenAmount amt d)),
                  .getAllowance ft w.address ad.data0.spenderAddress])

/- ------------------------------------------------------------------
   Arithmetic facts about the binary64 model of int(x * 1.5).
   ------------------------------------------------------------------ -/

lemma bitlen_le {n k : ℕ} (h : n < 2 ^ k) (hk : k ≤ 1100) : bitlen n ≤ k := by
  have hsub : ((Finset.range 1100).filter (fun i => 2 ^ i ≤ n)) ⊆ Finset.range k := by
    intro i hi
    simp only [Finset.mem_filter, Finset.mem_range] at hi ⊢
    rcases hi with ⟨-, hpi⟩
    by_contra hik
    push_neg at hik
    exact absurd h (not_lt.mpr (le_trans (Nat.pow_le_pow_right (by norm_num) hik) hpi))
  have hcard := Finset.card_le_card hsub
  simpa [bitlen, Finset.card_range] using hcard

lemma bitlen_ge {n k : ℕ} (h : 2 ^ k ≤ n) (hk : k + 1 ≤ 1100) : k + 1 ≤ bitlen n := by
  have hsub : Finset.range (k + 1) ⊆ ((Finset.range 1100).filter (fun i => 2 ^ i ≤ n)) := by
    intro i hi
    simp only [Finset.mem_filter, Finset.mem_range] at hi ⊢
    refine ⟨lt_of_lt_of_le hi hk, ?_⟩
    exact le_trans (Nat.pow_le_pow_right (by norm_num) (Nat.lt_succ_iff.mp hi)) h
  have hcard := Finset.card_le_card hsub
  simpa [bitlen, Finset.card_range] using hcard

lemma bitlen_eq {n k : ℕ} (h1 : 2 ^ k ≤ n) (h2 : n < 2 ^ (k + 1)) (hk : k + 1 ≤ 1100) :
    bitlen n = k + 1 :=
  le_antisymm (bitlen_le h2 hk) (bitlen_ge h1 hk)

/- Integers below 2^53 are exactly representable in binary64. -/
lemma roundMant_small {n : ℕ} (h : n < 2 ^ 53) : roundMant n = n := by
  unfold roundMant
  rw [if_pos (bitlen_le h (by norm_num))]

/- In the realistic range 3 * x < 2^53, int(x * 1.5) is exactly
   floor(3 * x / 2): both the operand and the product are representable. -/
lemma pyMul1_5_eq_of_small {x : ℕ} (h : 3 * x < 2 ^ 53) : pyMul1_5 x = 3 * x / 2 := by
  have hx : x < 2 ^ 53 := lt_of_le_of_lt (Nat.le_mul_of_pos_left x (by norm_num)) h
  unfold pyMul1_5
  rw [roundMant_small hx, roundMant_small h]

/- float(2^53 + 1) rounds (ties to even) down to 2^53. -/
lemma roundMant_pow53_succ : roundMant 9007199254740993 = 9007199254740992 := by
  have hb : bitlen 9007199254740993 = 54 :=
    bitlen_eq (k := 53) (by norm_num) (by norm_num) (by norm_num)
  unfold roundMant
  rw [hb]
  norm_num [rne]

/- 3 * 2^53 halves (the exact product 1.5 * 2^53) is representable. -/
lemma roundMant_threePow53 : roundMant 27021597764222976 = 27021597764222976 := by
  have hb : bitlen 27021597764222976 = 55 :=
    bitlen_eq (k := 54) (by norm_num) (by norm_num) (by norm_num)
  unfold roundMant
  rw [hb]
  norm_num [rne]

/- The float padding differs from floor(3x/2) at x = 2^53 + 1. -/
lemma pyMul1_5_pow53_succ : pyMul1_5 9007199254740993 = 13510798882111488 := by
  unfold pyMul1_5
  rw [roundMant_pow53_succ]
  have h3 : (3 : ℕ) * 9007199254740992 = 27021597764222976 := by norm_num
  rw [h3, roundMant_threePow53]

/- ------------------------------------------------------------------
   C5: gas padding.
   ------------------------------------------------------------------ -/

/-- C5 counterexample: the claim states that every padded gas field equals
floor(3*x/2) of the exact base value x.  This fails at x = 2^53 + 1: the
code computes int(x * 1.5) in binary64 float arithmetic, which yields
13510798882111488, while floor(3*x/2) = 13510798882111489.  Witnessed on
the swap transaction built by execute_swap (swap.py line 170). -/
theorem C5_counterexample :
    (buildSwapTx 7 ⟨"0xRouter", 9007199254740993, 21000, "0x", 0⟩ 1).gasPrice ≠
      3 * 9007199254740993 / 2 := by
  show pyMul1_5 9007199254740993 ≠ 3 * 9007199254740993 / 2
  rw [pyMul1_5_pow53_succ]
  norm_num

/-- C5 (amended): every broadcast transaction pads its gas price and gas
limit with int(base * 1.5) evaluated in binary64 arithmetic (pyMul1_5);
whenever 3 * base < 2^53 — which holds for all realistic gas values —
that padded field equals floor(3 * base / 2) exactly.  This covers the
approval transaction (swap.py lines 48-49) and the swap transaction
(lines 170-171). -/
theorem C5_amended (nonce : Nat) (tok : String) (gp : Nat) (item : ApproveItem)
    (ti : SwapTxInfo) (c : Int)
    (hgp : 3 * gp < 2 ^ 53) (hgl : 3 * item.gasLimit < 2 ^ 53)
    (htp : 3 * ti.gasPrice < 2 ^ 53) (htg : 3 * ti.gas < 2 ^ 53) :
    (buildApproveTransaction nonce tok gp item c).gasPrice = 3 * gp / 2 ∧
    (buildApproveTransaction nonce tok gp item c).gas = 3 * item.gasLimit / 2 ∧
    (buildSwapTx nonce ti c).gasPrice = 3 * ti.gasPrice / 2 ∧
    (buildSwapTx nonce ti c).gas = 3 * ti.gas / 2 := by
  refine ⟨?_, ?_, ?_, ?_⟩
  · exact pyMul1_5_eq_of_small hgp
  · exact pyMul1_5_eq_of_small hgl
  · exact pyMul1_5_eq_of_small htp
  · exact pyMul1_5_eq_of_small htg

/-- Witness for C5 (amended) at concrete gas values. -/
theorem C5_amended_witness :
    3 * 100 < 2 ^ 53 ∧
    (buildApproveTransaction 7 "0xToken" 100 ⟨"0xSpender", 60000, "0xdata"⟩ 1).gasPrice = 150 ∧
    (buildSwapTx 7 ⟨"0xRouter", 30, 21000, "0x", 0⟩ 1).gas = 31500 := by
  refine ⟨by norm_num, ?_, ?_⟩
  · have h := C5_amended 7 "0xToken" 100 ⟨"0xSpender", 60000, "0xdata"⟩
      ⟨"0xRouter", 30, 21000, "0x", 0⟩ 1 (by norm_num) (by norm_num) (by norm_num) (by norm_num)
    rw [h.1]
  · have h := C5_amended 7 "0xToken" 100 ⟨"0xSpender", 60000, "0xdata"⟩
      ⟨"0xRouter", 30, 21000, "0x", 0⟩ 1 (by norm_num) (by norm_num) (by norm_num) (by norm_num)
    rw [h.2.2.2]
    rfl

/- ------------------------------------------------------------------
   C6: _get_amount_in_wei.
   ------------------------------------------------------------------ -/

/-- C6: _get_amount_in_wei converts using the configured native-token
decimals when the token address is (case-insensitively) the native
marker 0xeee...eee, raising ValueError when the chain id is not in
NATIVE_TOKENS; otherwise it queries the token contract for decimals; in
the non-raising cases the result is str(parse_token_amount(amount,
decimals)). -/
theorem C6_getAmountInWei (env : Env) (c : Int) (t amt : String) :
    (isNativeToken t = true → env.nativeTokens c = none →
       getAmountInWei env c t amt =
         ⟨[], .error (.valueError s!"Unsupported chain ID: {c}")⟩) ∧
    (∀ d, isNativeToken t = true → env.nativeTokens c = some d →
       getAmountInWei env c t amt = ⟨[], .ok (toString (env.parseTokenAmount amt d))⟩) ∧
    (∀ d, isNativeToken t = false → env.getTokenDecimals t = .ok d →
       getAmountInWei env c t amt =
         ⟨[.getTokenDecimals t], .ok (toString (env.parseTokenAmount amt d))⟩) := by
  refine ⟨?_, ?_, ?_⟩
  · intro hN hc
    exact gaiwS_of_nat_err (gaiw_native_none hN hc)
  · intro d hN hc
    exact gaiwS_of_nat_ok (gaiw_native_some hN hc)
  · intro d hN hd
    exact gaiwS_of_nat_ok (gaiw_erc20_ok hN hd)

/-- Witness for C6 at concrete inputs: an ERC20 token queries the
contract decimals, the native marker uses the configured decimals, and
an unconfigured chain id raises ValueError. -/
theorem C6_witness :
    isNativeToken "0xTokenA" = false ∧
    getAmountInWei envBase 1 "0xTokenA" "1.5" =
      ⟨[.getTokenDecimals "0xTokenA"], .ok "1000000"⟩ ∧
    isNativeToken "0xEEeeeEEEeEeEeeEEeeeeEeeeeEEeEeeeEeEEeeEE" = true ∧
    getAmountInWei envBase 1 "0xEEeeeEEEeEeEeeEEeeeeEeeeeEEeEeeeEeEEeeEE" "1.5" =
      ⟨[], .ok "1000000"⟩ ∧
    (getAmountInWei envBase 2 "0xEEeeeEEEeEeEeeEEeeeeEeeeeEEeEeeeEeEEeeEE" "1.5").result =
      .error (.valueError "Unsupported chain ID: 2") := by
  refine ⟨by decide, ?_, by decide, ?_, ?_⟩
  · exact (C6_getAmountInWei envBase 1 "0xTokenA" "1.5").2.2 6 (by decide) rfl
  · exact (C6_getAmountInWei envBase 1 "0xEEeeeEEEeEeEeeEEeeeeEeeeeEEeEeeeEeEEeeEE" "1.5").2.1
      18 (by decide) rfl
  · rw [(C6_getAmountInWei envBase 2 "0xEEeeeEEEeEeEeeEEeeeeEeeeeEEeEeeeEeEEeeEE" "1.5").1
      (by decide) rfl]
    rfl

/- ------------------------------------------------------------------
   C8: wallet fallback.
   ------------------------------------------------------------------ -/

/-- C8: when wallet_name is not a key of WALLET_CONFIG, execute_swap does
not raise for that reason: WALLET_CONFIG.get(wallet_name, WALLET_CONFIG
["default"]) silently yields the default wallet, so the run is the one
that uses the default wallet's address and signing key. -/
theorem C8_walletFallback (env : Env) (c : Int) (ft tt amt : String)
    (recip : Option String) (slip : String) (name : String) (kw : Dict)
    (h : env.walletLookup name = none) :
    walletGet env name = env.walletDefault ∧
    executeSwap env c ft tt amt recip slip name kw =
      executeSwapCore env c ft tt amt recip slip kw env.walletDefault := by
  have hw : walletGet env name = env.walletDefault := by
    unfold walletGet
    rw [h]
    rfl
  exact ⟨hw, by unfold executeSwap; rw [hw]⟩

/-- Witness for C8: an unknown wallet name falls back to the default
wallet in a concrete environment. -/
theorem C8_witness :
    envBase.walletLookup "whale" = none ∧
    walletGet envBase "whale" = envBase.walletDefault ∧
    executeSwap envBase 1 "0xTokenA" "0xTokenB" "1.5" none "0.03" "whale" [] =
      executeSwapCore envBase 1 "0xTokenA" "0xTokenB" "1.5" none "0.03" [] envBase.walletDefault := by
  have h : envBase.walletLookup "whale" = none := by decide
  have hc := C8_walletFallback envBase 1 "0xTokenA" "0xTokenB" "1.5" none "0.03" "whale" [] h
  exact ⟨h, hc.1, hc.2⟩

/- ------------------------------------------------------------------
   C3: approval sent only if needed.
   ------------------------------------------------------------------ -/

/-- C3: a non-raising check_and_approve returns None exactly when the
queried allowance is at least the required amount, and returns the hash
of a broadcast approval transaction exactly when the allowance is
strictly smaller. -/
theorem C3_checkAndApprove (env : Env) (c : Int) (t o : String) (a : Nat) (r : Option String)
    (h : (checkAndApprove env c t o a).result = .ok r) :
    ∃ ad al, env.getApproveTransaction (buildApproveParams c t a) = .ok ad ∧
      env.getAllowance t o ad.data0.spenderAddress = .ok al ∧
      (r = none ↔ a ≤ al) ∧
      (∀ hash, r = some hash ↔ (al < a ∧ ∃ gp n,
         env.gasPrice = .ok gp ∧ env.getTransactionCount o = .ok n ∧
         env.sendTransaction (buildApproveTransaction n t gp ad.data0 c)
           env.walletDefault.private_key = .ok hash)) := by
  cases haf : env.getApproveTransaction (buildApproveParams c t a) with
  | error e =>
    rw [caa_err_fetch haf] at h
    exact absurd h (by simp)
  | ok ad =>
    cases hal : env.getAllowance t o ad.data0.spenderAddress with
    | error e =>
      rw [caa_err_allowance haf hal] at h
      exact absurd h (by simp)
    | ok al =>
      by_cases hlt : al < a
      · cases hgp : env.gasPrice with
        | error e =>
          rw [caa_err_gasPrice haf hal hlt hgp] at h
          exact absurd h (by simp)
        | ok gp =>
          cases hn : env.getTransactionCount o with
          | error e =>
            rw [caa_err_nonce haf hal hlt hgp hn] at h
            exact absurd h (by simp)
          | ok n =>
            cases hsend : env.sendTransaction (buildApproveTransaction n t gp ad.data0 c)
                env.walletDefault.private_key with
            | error e =>
              rw [caa_err_send haf hal hlt hgp hn hsend] at h
              exact absurd h (by simp)
            | ok hash =>
              rw [caa_ok_send haf hal hlt hgp hn hsend] at h
              simp only [Except.ok.injEq] at h
              subst h
              refine ⟨ad, al, rfl, hal, ?_, ?_⟩
              · exact iff_of_false (by simp) (by omega)
              · intro hash2
                constructor
                · intro hh
                  simp only [Option.some.injEq] at hh
                  subst hh
                  exact ⟨hlt, gp, n, rfl, rfl, hsend⟩
                · rintro ⟨-, gp2, n2, hgp2, hn2, hsend2⟩
                  have e1 : gp = gp2 := Except.ok.inj hgp2
                  subst e1
                  have e2 : n = n2 := Except.ok.inj hn2
                  subst e2
                  have e3 : hash = hash2 := Except.ok.inj (hsend.symm.trans hsend2)
                  rw [e3]
      · rw [caa_ok_none haf hal hlt] at h
        simp only [Except.ok.injEq] at h
        subst h
        refine ⟨ad, al, rfl, hal, ?_, ?_⟩
        · exact iff_of_true rfl (by omega)
        · intro hash
          constructor
          · intro hh
            exact absurd hh (by simp)
          · rintro ⟨hlt2, -⟩
            exact absurd hlt2 hlt

/-- Witness for C3 in a concrete environment whose allowance (0) is below
the required amount, so an approval is broadcast and returned. -/
theorem C3_witness :
    (checkAndApprove envBase 1 "0xTokenA" "0xUserAddress" 1000000).result = .ok (some "0xhash") ∧
    (∃ ad al, envBase.getApproveTransaction (buildApproveParams 1 "0xTokenA" 1000000) = .ok ad ∧
      envBase.getAllowance "0xTokenA" "0xUserAddress" ad.data0.spenderAddress = .ok al ∧
      ((some "0xhash" : Option String) = none ↔ 1000000 ≤ al) ∧
      (∀ hash, (some "0xhash" : Option String) = some hash ↔ (al < 1000000 ∧ ∃ gp n,
         envBase.gasPrice = .ok gp ∧ envBase.getTransactionCount "0xUserAddress" = .ok n ∧
         envBase.sendTransaction (buildApproveTransaction n "0xTokenA" gp ad.data0 1)
           envBase.walletDefault.private_key = .ok hash))) :=
  ⟨rfl, C3_checkAndApprove envBase 1 "0xTokenA" "0xUserAddress" 1000000 (some "0xhash") rfl⟩

/- ------------------------------------------------------------------
   C10: shape of the broadcast approval transaction.
   ------------------------------------------------------------------ -/

/-- C10: every approval transaction that check_and_approve hands to
send_transaction has value 0, its "to" field is the token contract
address, and its calldata is taken verbatim from the aggregator's
approval response. -/
theorem C10_approveTransaction (env : Env) (c : Int) (t o : String) (a : Nat)
    (s : Site) (tx : Tx) (key : String)
    (h : Event.sendTransaction s tx key ∈ (checkAndApprove env c t o a).trace) :
    tx.value = 0 ∧ tx.toAddr = t ∧
    ∃ ad, env.getApproveTransaction (buildApproveParams c t a) = .ok ad ∧
      tx.data = ad.data0.data := by
  cases haf : env.getApproveTransaction (buildApproveParams c t a) with
  | error e =>
    rw [caa_err_fetch haf] at h
    simp at h
  | ok ad =>
    cases hal : env.getAllowance t o ad.data0.spenderAddress with
    | error e =>
      rw [caa_err_allowance haf hal] at h
      simp at h
    | ok al =>
      by_cases hlt : al < a
      · cases hgp : env.gasPrice with
        | error e =>
          rw [caa_err_gasPrice haf hal hlt hgp] at h
          simp at h
        | ok gp =>
          cases hn : env.getTransactionCount o with
          | error e =>
            rw [caa_err_nonce haf hal hlt hgp hn] at h
            simp at h
          | ok n =>
            cases hsend : env.sendTransaction (buildApproveTransaction n t gp ad.data0 c)
                env.walletDefault.private_key with
            | error e =>
              rw [caa_err_send haf hal hlt hgp hn hsend] at h
              simp at h
              rcases h with ⟨-, htx, -⟩
              subst htx
              exact ⟨rfl, rfl, ad, rfl, rfl⟩
            | ok hash =>
              rw [caa_ok_send haf hal hlt hgp hn hsend] at h
              simp at h
              rcases h with ⟨-, htx, -⟩
              subst htx
              exact ⟨rfl, rfl, ad, rfl, rfl⟩
      · rw [caa_ok_none haf hal hlt] at h
        simp at h

/-- Witness for C10: the approval transaction broadcast in a concrete
environment has value 0, goes to the token contract, and carries the
aggregator's calldata. -/
theorem C10_witness :
    Event.sendTransaction .approveSend
        (buildApproveTransaction 7 "0xTokenA" 100 ⟨"0xSpender", 60000, "0xapprovecalldata"⟩ 1)
        "0xPrivKey" ∈ (checkAndApprove envBase 1 "0xTokenA" "0xUserAddress" 1000000).trace ∧
    ((buildApproveTransaction 7 "0xTokenA" 100 ⟨"0xSpender", 60000, "0xapprovecalldata"⟩ 1).value = 0 ∧
     (buildApproveTransaction 7 "0xTokenA" 100 ⟨"0xSpender", 60000, "0xapprovecalldata"⟩ 1).toAddr = "0xTokenA" ∧
     ∃ ad, envBase.getApproveTransaction (buildApproveParams 1 "0xTokenA" 1000000) = .ok ad ∧
       (buildApproveTransaction 7 "0xTokenA" 100 ⟨"0xSpender", 60000, "0xapprovecalldata"⟩ 1).data =
         ad.data0.data) := by
  have hmem : Event.sendTransaction .approveSend
      (buildApproveTransaction 7 "0xTokenA" 100 ⟨"0xSpender", 60000, "0xapprovecalldata"⟩ 1)
      "0xPrivKey" ∈ (checkAndApprove envBase 1 "0xTokenA" "0xUserAddress" 1000000).trace := by
    have h1 : envBase.getApproveTransaction (buildApproveParams 1 "0xTokenA" 1000000) =
        .ok ⟨⟨"0xSpender", 60000, "0xapprovecalldata"⟩⟩ := rfl
    have h2 : envBase.getAllowance "0xTokenA" "0xUserAddress" "0xSpender" = .ok 0 := rfl
    have h4 : envBase.gasPrice = .ok 100 := rfl
    have h5 : envBase.getTransactionCount "0xUserAddress" = .ok 7 := rfl
    have h6 : envBase.sendTransaction
        (buildApproveTransaction 7 "0xTokenA" 100 ⟨"0xSpender", 60000, "0xapprovecalldata"⟩ 1)
        "0xPrivKey" = .ok "0xhash" := rfl
    rw [caa_ok_send h1 h2 (by norm_num) h4 h5 h6]
    simp
    rfl
  exact ⟨hmem, C10_approveTransaction envBase 1 "0xTokenA" "0xUserAddress" 1000000
    .approveSend _ "0xPrivKey" hmem⟩

/- ------------------------------------------------------------------
   Dictionary lemmas.
   ------------------------------------------------------------------ -/

lemma dictHasKey_eq_any_keys (d : Dict) (k : String) :
    dictHasKey d k = (d.map Prod.fst).any (fun x => x == k) := by
  induction d with
  | nil => rfl
  | cons p tl ih =>
    simp only [dictHasKey, List.any_cons, List.map_cons] at ih ⊢
    rw [ih]

lemma keys_dictSet (d : Dict) (k1 v : String) :
    (dictSet d k1 v).map Prod.fst =
      if dictHasKey d k1 then d.map Prod.fst else d.map Prod.fst ++ [k1] := by
  unfold dictSet
  split
  · rw [List.map_map]
    apply List.map_congr_left
    intro p hp
    by_cases hpk : (p.1 == k1) = true
    · simp only [Function.comp_apply, hpk, if_true]
      exact (eq_of_beq hpk).symm
    · simp only [Function.comp_apply, hpk]
      rw [if_neg (by simp [hpk])]
  · simp

lemma dictHasKey_dictSet (d : Dict) (k1 v k : String) :
    dictHasKey (dictSet d k1 v) k = (dictHasKey d k || (k1 == k)) := by
  rw [dictHasKey_eq_any_keys, keys_dictSet]
  by_cases h : dictHasKey d k1
  · rw [if_pos h, ← dictHasKey_eq_any_keys]
    by_cases hbk : (k1 == k) = true
    · have hk : k1 = k := eq_of_beq hbk
      subst hk
      simp [h]
    · have hf : (k1 == k) = false := by simpa using hbk
      rw [hf, Bool.or_false]
  · rw [if_neg h, List.any_append, ← dictHasKey_eq_any_keys]
    simp

lemma dictHasKey_dictMerge (d kw : Dict) (k : String) :
    dictHasKey (dictMerge d kw) k = (dictHasKey d k || dictHasKey kw k) := by
  induction kw generalizing d with
  | nil => simp [dictMerge, dictHasKey]
  | cons p tl ih =>
    have h1 : dictMerge d (p :: tl) = dictMerge (dictSet d p.1 p.2) tl := rfl
    have h2 : dictHasKey (p :: tl) k = ((p.1 == k) || dictHasKey tl k) := rfl
    rw [h1, ih, dictHasKey_dictSet, h2, Bool.or_assoc]

lemma dictGet_dictSet_of_not_mem (d : Dict) (k v : String) (h : dictHasKey d k = false) :
    dictGet (dictSet d k v) k = some v := by
  unfold dictSet
  rw [if_neg (by simp [h])]
  unfold dictGet
  rw [List.find?_append]
  have hf : d.find? (fun p => p.1 == k) = none := by
    rw [List.find?_eq_none]
    intro x hx hpx
    have hk : dictHasKey d k = true := by
      unfold dictHasKey
      rw [List.any_eq_true]
      exact ⟨x, hx, hpx⟩
    rw [h] at hk
    cases hk
  rw [hf]
  simp [List.find?]

lemma swapParams_base_no_receiver (c : Int) (ft tt raw u slip : String) :
    dictHasKey [("chainId", toString c), ("fromTokenAddress", ft), ("toTokenAddress", tt),
      ("amount", raw), ("userWalletAddress", u), ("slippage", slip)]
      "swapReceiverAddress" = false := rfl

/- ------------------------------------------------------------------
   C9: swapReceiverAddress handling.
   ------------------------------------------------------------------ -/

/-- C9 (amended): provided the caller's kwargs do not themselves contain
the key "swapReceiverAddress", the request create_swap_transaction sends
to the aggregator contains that key iff recipient_address is truthy (a
non-None, non-empty string), and then its value is recipient_address;
every request sent by create_swap_transaction is of the buildSwapParams
shape.  (Without the kwargs proviso the claim fails: kwargs are merged
into the request and may supply the key themselves.) -/
theorem C9_amended (env : Env) (c : Int) (ft tt amt u : String) (recip : Option String)
    (slip : String) (kw : Dict)
    (hkw : dictHasKey kw "swapReceiverAddress" = false) :
    (∀ raw, dictHasKey (buildSwapParams c ft tt raw u recip slip kw) "swapReceiverAddress" =
       pyTruthyStr recip) ∧
    (∀ raw r, recip = some r → r.isEmpty = false →
       dictGet (buildSwapParams c ft tt raw u recip slip kw) "swapReceiverAddress" = some r) ∧
    (∀ p, Event.getSwap p ∈ (createSwapTransaction env c ft tt amt u recip slip kw).trace →
       ∃ raw, p = buildSwapParams c ft tt raw u recip slip kw) := by
  have hbase : ∀ raw, dictHasKey (dictMerge
      [("chainId", toString c), ("fromTokenAddress", ft), ("toTokenAddress", tt),
       ("amount", raw), ("userWalletAddress", u), ("slippage", slip)] kw)
      "swapReceiverAddress" = false := by
    intro raw
    rw [dictHasKey_dictMerge, swapParams_base_no_receiver, hkw]
    rfl
  refine ⟨?_, ?_, ?_⟩
  · intro raw
    unfold buildSwapParams
    cases recip with
    | none => exact hbase raw
    | some r =>
      by_cases hre : r.isEmpty
      · simp only [hre, if_true]
        rw [hbase raw]
        simp [pyTruthyStr, hre]
      · have hre2 : r.isEmpty = false := by simpa using hre
        simp only [hre2, Bool.false_eq_true, if_false]
        rw [dictHasKey_dictSet, hbase raw]
        simp [pyTruthyStr, hre2]
  · intro raw r hrec hre
    subst hrec
    unfold buildSwapParams
    simp only [hre, Bool.false_eq_true, if_false]
    exact dictGet_dictSet_of_not_mem _ _ _ (hbase raw)
  · intro p hp
    by_cases hN : isNativeToken ft = true
    · cases hc : env.nativeTokens c with
      | none =>
        rw [cst_of_amount_err (gaiwS_of_nat_err (gaiw_native_none hN hc))] at hp
        simp at hp
      | some d =>
        cases hs : env.getSwap (buildSwapParams c ft tt
            (toString (env.parseTokenAmount amt d)) u recip slip kw) with
        | error e =>
          rw [cst_err_swap (gaiwS_of_nat_ok (gaiw_native_some hN hc)) hs] at hp
          simp at hp
          exact ⟨_, hp⟩
        | ok sd =>
          rw [cst_ok_swap (gaiwS_of_nat_ok (gaiw_native_some hN hc)) hs] at hp
          simp at hp
          exact ⟨_, hp⟩
    · rw [Bool.not_eq_true] at hN
      cases hdq : env.getTokenDecimals ft with
      | error e =>
        rw [cst_of_amount_err (gaiwS_of_nat_err (gaiw_erc20_err hN hdq))] at hp
        simp at hp
      | ok d =>
        cases hs : env.getSwap (buildSwapParams c ft tt
            (toString (env.parseTokenAmount amt d)) u recip slip kw) with
        | error e =>
          rw [cst_err_swap (gaiwS_of_nat_ok (gaiw_erc20_ok hN hdq)) hs] at hp
          simp at hp
          exact ⟨_, hp⟩
        | ok sd =>
          rw [cst_ok_swap (gaiwS_of_nat_ok (gaiw_erc20_ok hN hdq)) hs] at hp
          simp at hp
          exact ⟨_, hp⟩

/-- C9 counterexample: with recipient_address = None (not truthy) but
kwargs containing "swapReceiverAddress", the request sent to the
aggregator does contain the key, refuting the claimed 'if and only if'. -/
theorem C9_counterexample :
    pyTruthyStr none = false ∧
    ∃ p, Event.getSwap p ∈ (createSwapTransaction envBase 1 "0xTokenA" "0xTokenB" "1.5"
        "0xUserAddress" none "0.03" [("swapReceiverAddress", "0xEvil")]).trace ∧
      dictHasKey p "swapReceiverAddress" = true := by
  refine ⟨rfl, buildSwapParams 1 "0xTokenA" "0xTokenB" "1000000" "0xUserAddress" none "0.03"
    [("swapReceiverAddress", "0xEvil")], ?_, ?_⟩
  · decide
  · decide

/-- Witness for C9 (amended) at a concrete truthy recipient with empty
kwargs: the key is present and carries the recipient address. -/
theorem C9_witness :
    dictHasKey ([] : Dict) "swapReceiverAddress" = false ∧
    dictHasKey (buildSwapParams 1 "0xA" "0xB" "100" "0xU" (some "0xRecv") "0.03" [])
      "swapReceiverAddress" = pyTruthyStr (some "0xRecv") ∧
    dictGet (buildSwapParams 1 "0xA" "0xB" "100" "0xU" (some "0xRecv") "0.03" [])
      "swapReceiverAddress" = some "0xRecv" := by
  have h := C9_amended envBase 1 "0xA" "0xB" "1.5" "0xU" (some "0xRecv") "0.03" [] rfl
  exact ⟨rfl, h.1 "100", h.2.1 "100" "0xRecv" rfl rfl⟩

/- Error/result attribution for the final phase described by TailSpec:
   on error, the failing call is the last event and all events before it
   succeeded; on success, the last event is the swap broadcast and the
   returned hash is the one send_transaction produced for it. -/
lemma tailspec_analysis {env : Env} {c : Int} {ft tt amt u : String} {recip : Option String}
    {slip : String} {kw : Dict} {key : String} {pre gtr : List Event} {raw : String}
    {out : Res String}
    (hts : TailSpec env c ft tt amt u recip slip kw key pre gtr raw out)
    (hpriors : ∀ x ∈ pre ++ gtr, evErr env x = none) :
    (∀ e, out.result = .error e →
       ∃ t ev, out.trace = t ++ [ev] ∧ evErr env ev = some e ∧ ∀ x ∈ t, evErr env x = none) ∧
    (∀ hash, out.result = .ok hash →
       ∃ (n : Nat) (sd : SwapResp),
         out.trace.getLast? = some (.sendTransaction .swapSend (buildSwapTx n sd.tx0 c) key) ∧
         env.sendTransaction (buildSwapTx n sd.tx0 c) key = .ok hash) := by
  unfold TailSpec at hts
  rcases hts with ⟨e2, hs, heq⟩ | ⟨sd, hs, ⟨e2, hn, heq⟩ | ⟨n, hn,
      ⟨e2, hsend, heq⟩ | ⟨hash2, hsend, heq⟩⟩⟩
  · constructor
    · intro e he
      rw [heq] at he
      simp only [Except.error.injEq] at he
      subst he
      refine ⟨pre ++ gtr, _, by rw [heq], by simp [evErr, errOf, hs], hpriors⟩
    · intro hash hok
      rw [heq] at hok
      simp at hok
  · constructor
    · intro e he
      rw [heq] at he
      simp only [Except.error.injEq] at he
      subst he
      refine ⟨(pre ++ gtr) ++ [.getSwap (buildSwapParams c ft tt raw u recip slip kw)],
        .getTransactionCount .swapNonce u,
        by rw [heq]; simp, by simp [evErr, errOf, hn], ?_⟩
      intro x hx
      rcases List.mem_append.mp hx with hx2 | hx2
      · exact hpriors x hx2
      · rw [List.mem_singleton] at hx2
        subst hx2
        simp [evErr, errOf, hs]
    · intro hash hok
      rw [heq] at hok
      simp at hok
  · constructor
    · intro e he
      rw [heq] at he
      simp only [Except.error.injEq] at he
      subst he
      refine ⟨(pre ++ gtr) ++ [.getSwap (buildSwapParams c ft tt raw u recip slip kw),
        .getTransactionCount .swapNonce u],
        .sendTransaction .swapSend (buildSwapTx n sd.tx0 c) key,
        by rw [heq]; simp, by simp [evErr, errOf, hsend], ?_⟩
      intro x hx
      rcases List.mem_append.mp hx with hx2 | hx2
      · exact hpriors x hx2
      · rcases List.mem_cons.mp hx2 with hx3 | hx3
        · subst hx3
          simp [evErr, errOf, hs]
        · rw [List.mem_singleton] at hx3
          subst hx3
          simp [evErr, errOf, hn]
    · intro hash hok
      rw [heq] at hok
      simp at hok
  · constructor
    · intro e he
      rw [heq] at he
      simp at he
    · intro hash hok
      rw [heq] at hok
      simp only [Except.ok.injEq] at hok
      subst hok
      refine ⟨n, sd, ?_, hsend⟩
      rw [heq]
      have hsp : (pre ++ gtr) ++ [Event.getSwap (buildSwapParams c ft tt raw u recip slip kw),
          Event.getTransactionCount .swapNonce u,
          Event.sendTransaction .swapSend (buildSwapTx n sd.tx0 c) key] =
          ((pre ++ gtr) ++ [Event.getSwap (buildSwapParams c ft tt raw u recip slip kw),
            Event.getTransactionCount .swapNonce u]) ++
            [Event.sendTransaction .swapSend (buildSwapTx n sd.tx0 c) key] := by
        simp
      rw [hsp, List.getLast?_concat]

/- Error/result attribution for all of execute_swap: on success the last
   event is the swap broadcast whose hash is returned; on error, either
   the amount conversion raised ValueError before any external call, or
   the failing external call is the last event and all earlier calls
   succeeded. -/
lemma executeSwap_shape (env : Env) (c : Int) (ft tt amt : String) (recip : Option String)
    (slip name : String) (kw : Dict) :
    (∀ e, (executeSwap env c ft tt amt recip slip name kw).result = .error e →
       ((executeSwap env c ft tt amt recip slip name kw).trace = [] ∧
          e = .valueError s!"Unsupported chain ID: {c}" ∧
          isNativeToken ft = true ∧ env.nativeTokens c = none) ∨
       (∃ t ev, (executeSwap env c ft tt amt recip slip name kw).trace = t ++ [ev] ∧
          evErr env ev = some e ∧ ∀ x ∈ t, evErr env x = none)) ∧
    (∀ hash, (executeSwap env c ft tt amt recip slip name kw).result = .ok hash →
       ∃ (n : Nat) (sd : SwapResp),
         (executeSwap env c ft tt amt recip slip name kw).trace.getLast? =
           some (.sendTransaction .swapSend (buildSwapTx n sd.tx0 c)
             (walletGet env name).private_key) ∧
         env.sendTransaction (buildSwapTx n sd.tx0 c) (walletGet env name).private_key =
           .ok hash) := by
  unfold executeSwap
  rcases executeSwapCore_spec env c ft tt amt recip slip kw (walletGet env name) with
    ⟨hN, ⟨hc, heq⟩ | ⟨d, hc, htail⟩⟩ |
    ⟨hN, ⟨e0, hdq, heq⟩ | ⟨d, hdq,
      ⟨e0, haf, heq⟩ | ⟨ad, haf,
        ⟨e0, hal, heq⟩ | ⟨a0, hal,
          ⟨hge, htail⟩ | ⟨hlt,
            ⟨e0, hgp, heq⟩ | ⟨gp, hgp,
              ⟨e0, hn1, heq⟩ | ⟨n1, hn1,
                ⟨e0, hsd, heq⟩ | ⟨h1, hsd,
                  ⟨hem, htail⟩ | ⟨hem,
                    ⟨e0, hwt, heq⟩ | ⟨hwt, htail⟩⟩⟩⟩⟩⟩⟩⟩⟩⟩
  · -- native token, chain id not configured: ValueError, no calls
    constructor
    · intro e he
      rw [heq] at he
      simp only [Except.error.injEq] at he
      subst he
      exact Or.inl ⟨by rw [heq], rfl, hN, hc⟩
    · intro hash hok
      rw [heq] at hok
      simp at hok
  · -- native token, configured: straight to the swap tail
    have hpr : ∀ x ∈ (([] : List Event) ++ ([] : List Event)), evErr env x = none := by
      intro x hx
      simp at hx
    have hta := tailspec_analysis htail hpr
    exact ⟨fun e he => Or.inr (hta.1 e he), hta.2⟩
  · -- ERC20: decimals query fails
    constructor
    · intro e he
      rw [heq] at he
      simp only [Except.error.injEq] at he
      subst he
      refine Or.inr ⟨[], .getTokenDecimals ft, by rw [heq]; rfl, by simp [evErr, errOf, hdq], ?_⟩
      intro x hx
      simp at hx
    · intro hash hok
      rw [heq] at hok
      simp at hok
  · -- ERC20: approve fetch fails
    constructor
    · intro e he
      rw [heq] at he
      simp only [Except.error.injEq] at he
      subst he
      refine Or.inr ⟨[.getTokenDecimals ft],
        .getApproveTransaction (buildApproveParams c ft (env.parseTokenAmount amt d)),
        by rw [heq]; rfl, by simp [evErr, errOf, haf], ?_⟩
      intro x hx
      simp at hx
      subst hx
      simp [evErr, errOf, hdq]
    · intro hash hok
      rw [heq] at hok
      simp at hok
  · -- ERC20: allowance query fails
    constructor
    · intro e he
      rw [heq] at he
      simp only [Except.error.injEq] at he
      subst he
      refine Or.inr ⟨[.getTokenDecimals ft,
        .getApproveTransaction (buildApproveParams c ft (env.parseTokenAmount amt d))],
        .getAllowance ft (walletGet env name).address ad.data0.spenderAddress,
        by rw [heq]; rfl, by simp [evErr, errOf, hal], ?_⟩
      intro x hx
      simp at hx
      rcases hx with rfl | rfl <;> simp [evErr, errOf, hdq, haf]
    · intro hash hok
      rw [heq] at hok
      simp at hok
  · -- ERC20, sufficient allowance: swap tail after three calls
    have hpr : ∀ x ∈ ([.getTokenDecimals ft,
        .getApproveTransaction (buildApproveParams c ft (env.parseTokenAmount amt d)),
        .getAllowance ft (walletGet env name).address ad.data0.spenderAddress] ++
        [Event.getTokenDecimals ft]), evErr env x = none := by
      intro x hx
      simp at hx
      rcases hx with rfl | rfl | rfl | rfl <;> simp [evErr, errOf, hdq, haf, hal]
    have hta := tailspec_analysis htail hpr
    exact ⟨fun e he => Or.inr (hta.1 e he), hta.2⟩
  · -- ERC20, approval needed: gas price query fails
    constructor
    · intro e he
      rw [heq] at he
      simp only [Except.error.injEq] at he
      subst he
      refine Or.inr ⟨[.getTokenDecimals ft,
        .getApproveTransaction (buildApproveParams c ft (env.parseTokenAmount amt d)),
        .getAllowance ft (walletGet env name).address ad.data0.spenderAddress],
        .gasPriceQuery,
        by rw [heq]; rfl, by simp [evErr, errOf, hgp], ?_⟩
      intro x hx
      simp at hx
      rcases hx with rfl | rfl | rfl <;> simp [evErr, errOf, hdq, haf, hal]
    · intro hash hok
      rw [heq] at hok
      simp at hok
  · -- ERC20, approval needed: nonce query fails
    constructor
    · intro e he
      rw [heq] at he
      simp only [Except.error.injEq] at he
      subst he
      refine Or.inr ⟨[.getTokenDecimals ft,
        .getApproveTransaction (buildApproveParams c ft (env.parseTokenAmount amt d)),
        .getAllowance ft (walletGet env name).address ad.data0.spenderAddress,
        .gasPriceQuery],
        .getTransactionCount .approveNonce (walletGet env name).address,
        by rw [heq]; rfl, by simp [evErr, errOf, hn1], ?_⟩
      intro x hx
      simp at hx
      rcases hx with rfl | rfl | rfl | rfl <;> simp [evErr, errOf, hdq, haf, hal, hgp]
    · intro hash hok
      rw [heq] at hok
      simp at hok
  · -- ERC20, approval needed: approval broadcast fails
    constructor
    · intro e he
      rw [heq] at he
      simp only [Except.error.injEq] at he
      subst he
      refine Or.inr ⟨[.getTokenDecimals ft,
        .getApproveTransaction (buildApproveParams c ft (env.parseTokenAmount amt d)),
        .getAllowance ft (walletGet env name).address ad.data0.spenderAddress,
        .gasPriceQuery,
        .getTransactionCount .approveNonce (walletGet env name).address],
        .sendTransaction .approveSend (buildApproveTransaction n1 ft gp ad.data0 c)
          env.walletDefault.private_key,
        by rw [heq]; rfl, by simp [evErr, errOf, hsd], ?_⟩
      intro x hx
      simp at hx
      rcases hx with rfl | rfl | rfl | rfl | rfl <;> simp [evErr, errOf, hdq, haf, hal, hgp, hn1]
    · intro hash hok
      rw [heq] at hok
      simp at hok
  · -- ERC20, approval broadcast with empty hash: wait skipped, swap tail
    have hpr : ∀ x ∈ ([.getTokenDecimals ft,
        .getApproveTransaction (buildApproveParams c ft (env.parseTokenAmount amt d)),
        .getAllowance ft (walletGet env name).address ad.data0.spenderAddress,
        .gasPriceQuery,
        .getTransactionCount .approveNonce (walletGet env name).address,
        .sendTransaction .approveSend (buildApproveTransaction n1 ft gp ad.data0 c)
          env.walletDefault.private_key] ++
        [Event.getTokenDecimals ft]), evErr env x = none := by
      intro x hx
      simp at hx
      rcases hx with rfl | rfl | rfl | rfl | rfl | rfl | rfl <;>
        simp [evErr, errOf, hdq, haf, hal, hgp, hn1, hsd]
    have hta := tailspec_analysis htail hpr
    exact ⟨fun e he => Or.inr (hta.1 e he), hta.2⟩
  · -- ERC20, approval broadcast: receipt wait fails
    constructor
    · intro e he
      rw [heq] at he
      simp only [Except.error.injEq] at he
      subst he
      refine Or.inr ⟨[.getTokenDecimals ft,
        .getApproveTransaction (buildApproveParams c ft (env.parseTokenAmount amt d)),
        .getAllowance ft (walletGet env name).address ad.data0.spenderAddress,
        .gasPriceQuery,
        .getTransactionCount .approveNonce (walletGet env name).address,
        .sendTransaction .approveSend (buildApproveTransaction n1 ft gp ad.data0 c)
          env.walletDefault.private_key],
        .waitForReceipt h1,
        by rw [heq]; rfl, by simp [evErr, errOf, hwt], ?_⟩
      intro x hx
      simp at hx
      rcases hx with rfl | rfl | rfl | rfl | rfl | rfl <;>
        simp [evErr, errOf, hdq, haf, hal, hgp, hn1, hsd]
    · intro hash hok
      rw [heq] at hok
      simp at hok
  · -- ERC20, approval confirmed: swap tail after seven calls
    have hpr : ∀ x ∈ ([.getTokenDecimals ft,
        .getApproveTransaction (buildApproveParams c ft (env.parseTokenAmount amt d)),
        .getAllowance ft (walletGet env name).address ad.data0.spenderAddress,
        .gasPriceQuery,
        .getTransactionCount .approveNonce (walletGet env name).address,
        .sendTransaction .approveSend (buildApproveTransaction n1 ft gp ad.data0 c)
          env.walletDefault.private_key,
        .waitForReceipt h1] ++
        [Event.getTokenDecimals ft]), evErr env x = none := by
      intro x hx
      simp at hx
      rcases hx with rfl | rfl | rfl | rfl | rfl | rfl | rfl | rfl <;>
        simp [evErr, errOf, hdq, haf, hal, hgp, hn1, hsd, hwt]
    have hta := tailspec_analysis htail hpr
    exact ⟨fun e he => Or.inr (hta.1 e he), hta.2⟩

/- The four possible successful runs of execute_swap, with their exact
   event traces: native token (3 calls); ERC20 with sufficient allowance
   (7 calls); ERC20 with approval broadcast whose returned hash is empty,
   so the receipt wait is skipped (10 calls); ERC20 with approval
   broadcast and receipt awaited (11 calls). -/
lemma executeSwap_ok_detail (env : Env) (c : Int) (ft tt amt : String) (recip : Option String)
    (slip name : String) (kw : Dict) (hash : String)
    (hok : (executeSwap env c ft tt amt recip slip name kw).result = .ok hash) :
    (∃ (d : Nat) (sd : SwapResp) (n : Nat),
       isNativeToken ft = true ∧
       env.nativeTokens c = some d ∧
       env.sendTransaction (buildSwapTx n sd.tx0 c) (walletGet env name).private_key = .ok hash ∧
       (executeSwap env c ft tt amt recip slip name kw).trace =
         [.getSwap (buildSwapParams c ft tt (toString (env.parseTokenAmount amt d))
            (walletGet env name).address recip slip kw),
          .getTransactionCount .swapNonce (walletGet env name).address,
          .sendTransaction .swapSend (buildSwapTx n sd.tx0 c) (walletGet env name).private_key]) ∨
    (∃ (d : Nat) (ad : ApproveResp) (a0 : Nat) (sd : SwapResp) (n : Nat),
       isNativeToken ft = false ∧
       env.getTokenDecimals ft = .ok d ∧
       env.getApproveTransaction (buildApproveParams c ft (env.parseTokenAmount amt d)) = .ok ad ∧
       env.getAllowance ft (walletGet env name).address ad.data0.spenderAddress = .ok a0 ∧
       ¬ a0 < env.parseTokenAmount amt d ∧
       env.sendTransaction (buildSwapTx n sd.tx0 c) (walletGet env name).private_key = .ok hash ∧
       (executeSwap env c ft tt amt recip slip name kw).trace =
         [.getTokenDecimals ft,
          .getApproveTransaction (buildApproveParams c ft (env.parseTokenAmount amt d)),
          .getAllowance ft (walletGet env name).address ad.data0.spenderAddress,
          .getTokenDecimals ft,
          .getSwap (buildSwapParams c ft tt (toString (env.parseTokenAmount amt d))
            (walletGet env name).address recip slip kw),
          .getTransactionCount .swapNonce (walletGet env name).address,
          .sendTransaction .swapSend (buildSwapTx n sd.tx0 c) (walletGet env name).private_key]) ∨
    (∃ (d : Nat) (ad : ApproveResp) (a0 gp n1 : Nat) (h1 : String) (sd : SwapResp) (n : Nat),
       isNativeToken ft = false ∧
       env.getTokenDecimals ft = .ok d ∧
       env.getApproveTransaction (buildApproveParams c ft (env.parseTokenAmount amt d)) = .ok ad ∧
       env.getAllowance ft (walletGet env name).address ad.data0.spenderAddress = .ok a0 ∧
       a0 < env.parseTokenAmount amt d ∧
       env.sendTransaction (buildApproveTransaction n1 ft gp ad.data0 c)
         env.walletDefault.private_key = .ok h1 ∧
       h1.isEmpty = true ∧
       env.sendTransaction (buildSwapTx n sd.tx0 c) (walletGet env name).private_key = .ok hash ∧
       (executeSwap env c ft tt amt recip slip name kw).trace =
         [.getTokenDecimals ft,
          .getApproveTransaction (buildApproveParams c ft (env.parseTokenAmount amt d)),
          .getAllowance ft (walletGet env name).address ad.data0.spenderAddress,
          .gasPriceQuery,
          .getTransactionCount .approveNonce (walletGet env name).address,
          .sendTransaction .approveSend (buildApproveTransaction n1 ft gp ad.data0 c)
            env.walletDefault.private_key,
          .getTokenDecimals ft,
          .getSwap (buildSwapParams c ft tt (toString (env.parseTokenAmount amt d))
            (walletGet env name).address recip slip kw),
          .getTransactionCount .swapNonce (walletGet env name).address,
          .sendTransaction .swapSend (buildSwapTx n sd.tx0 c) (walletGet env name).private_key]) ∨
    (∃ (d : Nat) (ad : ApproveResp) (a0 gp n1 : Nat) (h1 : String) (sd : SwapResp) (n : Nat),
       isNativeToken ft = false ∧
       env.getTokenDecimals ft = .ok d ∧
       env.getApproveTransaction (buildApproveParams c ft (env.parseTokenAmount amt d)) = .ok ad ∧
       env.getAllowance ft (walletGet env name).address ad.data0.spenderAddress = .ok a0 ∧
       a0 < env.parseTokenAmount amt d ∧
       env.sendTransaction (buildApproveTransaction n1 ft gp ad.data0 c)
         env.walletDefault.private_key = .ok h1 ∧
       h1.isEmpty = false ∧
       env.waitForTransactionReceipt h1 = .ok () ∧
       env.sendTransaction (buildSwapTx n sd.tx0 c) (walletGet env name).private_key = .ok hash ∧
       (executeSwap env c ft tt amt recip slip name kw).trace =
         [.getTokenDecimals ft,
          .getApproveTransaction (buildApproveParams c ft (env.parseTokenAmount amt d)),
          .getAllowance ft (walletGet env name).address ad.data0.spenderAddress,
          .gasPriceQuery,
          .getTransactionCount .approveNonce (walletGet env name).address,
          .sendTransaction .approveSend (buildApproveTransaction n1 ft gp ad.data0 c)
            env.walletDefault.private_key,
          .waitForReceipt h1,
          .getTokenDecimals ft,
          .getSwap (buildSwapParams c ft tt (toString (env.parseTokenAmount amt d))
            (walletGet env name).address recip slip kw),
          .getTransactionCount .swapNonce (walletGet env name).address,
          .sendTransaction .swapSend (buildSwapTx n sd.tx0 c) (walletGet env name).private_key]) := by
  unfold executeSwap at hok ⊢
  rcases executeSwapCore_spec env c ft tt amt recip slip kw (walletGet env name) with
    ⟨hN, ⟨hc, heq⟩ | ⟨d, hc, htail⟩⟩ |
    ⟨hN, ⟨e0, hdq, heq⟩ | ⟨d, hdq,
      ⟨e0, haf, heq⟩ | ⟨ad, haf,
        ⟨e0, hal, heq⟩ | ⟨a0, hal,
          ⟨hge, htail⟩ | ⟨hlt,
            ⟨e0, hgp, heq⟩ | ⟨gp, hgp,
              ⟨e0, hn1, heq⟩ | ⟨n1, hn1,
                ⟨e0, hsd, heq⟩ | ⟨h1, hsd,
                  ⟨hem, htail⟩ | ⟨hem,
                    ⟨e0, hwt, heq⟩ | ⟨hwt, htail⟩⟩⟩⟩⟩⟩⟩⟩⟩⟩
  · rw [heq] at hok
    simp at hok
  · unfold TailSpec at htail
    rcases htail with ⟨e2, hs, heq2⟩ | ⟨sd, hs, ⟨e2, hn, heq2⟩ | ⟨n, hn,
        ⟨e2, hsend, heq2⟩ | ⟨hash2, hsend, heq2⟩⟩⟩
    · rw [heq2] at hok; simp at hok
    · rw [heq2] at hok; simp at hok
    · rw [heq2] at hok; simp at hok
    · rw [heq2] at hok
      simp only [Except.ok.injEq] at hok
      subst hok
      exact Or.inl ⟨d, sd, n, hN, hc, hsend, by rw [heq2]; rfl⟩
  · rw [heq] at hok; simp at hok
  · rw [heq] at hok; simp at hok
  · rw [heq] at hok; simp at hok
  · unfold TailSpec at htail
    rcases htail with ⟨e2, hs, heq2⟩ | ⟨sd, hs, ⟨e2, hn, heq2⟩ | ⟨n, hn,
        ⟨e2, hsend, heq2⟩ | ⟨hash2, hsend, heq2⟩⟩⟩
    · rw [heq2] at hok; simp at hok
    · rw [heq2] at hok; simp at hok
    · rw [heq2] at hok; simp at hok
    · rw [heq2] at hok
      simp only [Except.ok.injEq] at hok
      subst hok
      exact Or.inr (Or.inl ⟨d, ad, a0, sd, n, hN, hdq, haf, hal, hge, hsend,
        by rw [heq2]; rfl⟩)
  · rw [heq] at hok; simp at hok
  · rw [heq] at hok; simp at hok
  · rw [heq] at hok; simp at hok
  · unfold TailSpec at htail
    rcases htail with ⟨e2, hs, heq2⟩ | ⟨sd, hs, ⟨e2, hn, heq2⟩ | ⟨n, hn,
        ⟨e2, hsend, heq2⟩ | ⟨hash2, hsend, heq2⟩⟩⟩
    · rw [heq2] at hok; simp at hok
    · rw [heq2] at hok; simp at hok
    · rw [heq2] at hok; simp at hok
    · rw [heq2] at hok
      simp only [Except.ok.injEq] at hok
      subst hok
      exact Or.inr (Or.inr (Or.inl ⟨d, ad, a0, gp, n1, h1, sd, n, hN, hdq, haf, hal, hlt,
        hsd, hem, hsend, by rw [heq2]; rfl⟩))
  · rw [heq] at hok; simp at hok
  · unfold TailSpec at htail
    rcases htail with ⟨e2, hs, heq2⟩ | ⟨sd, hs, ⟨e2, hn, heq2⟩ | ⟨n, hn,
        ⟨e2, hsend, heq2⟩ | ⟨hash2, hsend, heq2⟩⟩⟩
    · rw [heq2] at hok; simp at hok
    · rw [heq2] at hok; simp at hok
    · rw [heq2] at hok; simp at hok
    · rw [heq2] at hok
      simp only [Except.ok.injEq] at hok
      subst hok
      exact Or.inr (Or.inr (Or.inr ⟨d, ad, a0, gp, n1, h1, sd, n, hN, hdq, haf, hal, hlt,
        hsd, hem, hwt, hsend, by rw [heq2]; rfl⟩))

lemma count_fullSites (s : Site) :
    fullSites.count s = (if s = Site.decimalsQuery then 2 else 1) := by
  cases s <;> decide

/- Every execute_swap trace visits its call sites in the canonical order,
   each at most once except the decimals query (visited once directly and
   once inside create_swap_transaction). -/
lemma executeSwap_sites_sublist (env : Env) (c : Int) (ft tt amt : String)
    (recip : Option String) (slip name : String) (kw : Dict) :
    ((executeSwap env c ft tt amt recip slip name kw).trace.map Event.site).Sublist
      fullSites := by
  unfold executeSwap fullSites
  rcases executeSwapCore_spec env c ft tt amt recip slip kw (walletGet env name) with
    ⟨hN, ⟨hc, heq⟩ | ⟨d, hc, htail⟩⟩ |
    ⟨hN, ⟨e0, hdq, heq⟩ | ⟨d, hdq,
      ⟨e0, haf, heq⟩ | ⟨ad, haf,
        ⟨e0, hal, heq⟩ | ⟨a0, hal,
          ⟨hge, htail⟩ | ⟨hlt,
            ⟨e0, hgp, heq⟩ | ⟨gp, hgp,
              ⟨e0, hn1, heq⟩ | ⟨n1, hn1,
                ⟨e0, hsd, heq⟩ | ⟨h1, hsd,
                  ⟨hem, htail⟩ | ⟨hem,
                    ⟨e0, hwt, heq⟩ | ⟨hwt, htail⟩⟩⟩⟩⟩⟩⟩⟩⟩⟩ <;>
  first
    | (rw [heq]
       simp only [List.map_cons, List.map_nil, Event.site]
       decide)
    | (unfold TailSpec at htail
       rcases htail with ⟨e2, hs, heq2⟩ | ⟨sd, hs, ⟨e2, hn, heq2⟩ | ⟨n, hn,
           ⟨e2, hsend, heq2⟩ | ⟨hash2, hsend, heq2⟩⟩⟩ <;>
         (rw [heq2]
          simp only [List.append_nil, List.nil_append, List.cons_append,
            List.map_append, List.map_cons, List.map_nil, Event.site]
          decide))

/- Call-site order and multiplicity of one check_and_approve run. -/
lemma caa_sites_sublist (env : Env) (c : Int) (t o : String) (a : Nat) :
    ((checkAndApprove env c t o a).trace.map Event.site).Sublist
      [.approveFetch, .allowanceQuery, .approveGasPrice, .approveNonce, .approveSend] := by
  cases haf : env.getApproveTransaction (buildApproveParams c t a) with
  | error e =>
    rw [caa_err_fetch haf]
    simp only [List.map_cons, List.map_nil, Event.site]
    decide
  | ok ad =>
    cases hal : env.getAllowance t o ad.data0.spenderAddress with
    | error e =>
      rw [caa_err_allowance haf hal]
      simp only [List.map_cons, List.map_nil, Event.site]
      decide
    | ok al =>
      by_cases hlt : al < a
      · cases hgp : env.gasPrice with
        | error e =>
          rw [caa_err_gasPrice haf hal hlt hgp]
          simp only [List.map_cons, List.map_nil, Event.site]
          decide
        | ok gp =>
          cases hn : env.getTransactionCount o with
          | error e =>
            rw [caa_err_nonce haf hal hlt hgp hn]
            simp only [List.map_cons, List.map_nil, Event.site]
            decide
          | ok n =>
            cases hsend : env.sendTransaction (buildApproveTransaction n t gp ad.data0 c)
                env.walletDefault.private_key with
            | error e =>
              rw [caa_err_send haf hal hlt hgp hn hsend]
              simp only [List.map_cons, List.map_nil, Event.site]
              decide
            | ok hash =>
              rw [caa_ok_send haf hal hlt hgp hn hsend]
              simp only [List.map_cons, List.map_nil, Event.site]
              decide
      · rw [caa_ok_none haf hal hlt]
        simp only [List.map_cons, List.map_nil, Event.site]
        decide

/- Call-site order and multiplicity of one create_swap_transaction run. -/
lemma cst_sites_sublist (env : Env) (c : Int) (ft tt amt u : String)
    (recip : Option String) (slip : String) (kw : Dict) :
    ((createSwapTransaction env c ft tt amt u recip slip kw).trace.map Event.site).Sublist
      [.decimalsQuery, .swapFetch] := by
  by_cases hN : isNativeToken ft = true
  · cases hc : env.nativeTokens c with
    | none =>
      rw [cst_of_amount_err (gaiwS_of_nat_err (gaiw_native_none hN hc))]
      simp only [List.map_nil]
      decide
    | some d =>
      cases hs : env.getSwap (buildSwapParams c ft tt
          (toString (env.parseTokenAmount amt d)) u recip slip kw) with
      | error e =>
        rw [cst_err_swap (gaiwS_of_nat_ok (gaiw_native_some hN hc)) hs]
        simp only [List.nil_append, List.map_cons, List.map_nil, Event.site]
        decide
      | ok sd =>
        rw [cst_ok_swap (gaiwS_of_nat_ok (gaiw_native_some hN hc)) hs]
        simp only [List.nil_append, List.map_cons, List.map_nil, Event.site]
        decide
  · rw [Bool.not_eq_true] at hN
    cases hdq : env.getTokenDecimals ft with
    | error e =>
      rw [cst_of_amount_err (gaiwS_of_nat_err (gaiw_erc20_err hN hdq))]
      simp only [List.map_cons, List.map_nil, Event.site]
      decide
    | ok d =>
      cases hs : env.getSwap (buildSwapParams c ft tt
          (toString (env.parseTokenAmount amt d)) u recip slip kw) with
      | error e =>
        rw [cst_err_swap (gaiwS_of_nat_ok (gaiw_erc20_ok hN hdq)) hs]
        simp only [List.cons_append, List.nil_append, List.map_cons, List.map_nil, Event.site]
        decide
      | ok sd =>
        rw [cst_ok_swap (gaiwS_of_nat_ok (gaiw_erc20_ok hN hdq)) hs]
        simp only [List.cons_append, List.nil_append, List.map_cons, List.map_nil, Event.site]
        decide

/- ------------------------------------------------------------------
   C1: error propagation and returned hash.
   ------------------------------------------------------------------ -/

/-- C1 (amended): if any external HTTP/RPC call raises, that first error
is propagated unchanged: the failing call is the last recorded event,
every earlier call succeeded, and the error is returned as-is.
Otherwise execute_swap returns the hash produced by send_transaction for
the swap transaction — except on the one internal failure path the claim
overlooks: a native from-token on a chain id missing from NATIVE_TOKENS
raises ValueError before any external call. -/
theorem C1_amended (env : Env) (c : Int) (ft tt amt : String) (recip : Option String)
    (slip name : String) (kw : Dict) :
    (∀ hash, (executeSwap env c ft tt amt recip slip name kw).result = .ok hash →
       ∃ tx, (executeSwap env c ft tt amt recip slip name kw).trace.getLast? =
           some (.sendTransaction .swapSend tx (walletGet env name).private_key) ∧
         env.sendTransaction tx (walletGet env name).private_key = .ok hash) ∧
    (∀ e, (executeSwap env c ft tt amt recip slip name kw).result = .error e →
       ((executeSwap env c ft tt amt recip slip name kw).trace = [] ∧
          e = .valueError s!"Unsupported chain ID: {c}" ∧
          isNativeToken ft = true ∧ env.nativeTokens c = none) ∨
       (∃ t ev, (executeSwap env c ft tt amt recip slip name kw).trace = t ++ [ev] ∧
          evErr env ev = some e ∧ ∀ x ∈ t, evErr env x = none)) := by
  have h := executeSwap_shape env c ft tt amt recip slip name kw
  refine ⟨?_, h.1⟩
  intro hash hok
  obtain ⟨n, sd, h1, h2⟩ := h.2 hash hok
  exact ⟨buildSwapTx n sd.tx0 c, h1, h2⟩

/-- C1 counterexample: with a native from-token on an unconfigured chain
id, no external call is made (the trace is empty, so no external call
raised), yet execute_swap does not return a transaction hash — it raises
ValueError.  This refutes the claim's 'otherwise' clause. -/
theorem C1_counterexample :
    (executeSwap envBase 2 "0xEEeeeEEEeEeEeeEEeeeeEeeeeEEeEeeeEeEEeeEE" "0xTokenB" "1.5"
        none "0.03" "default" []).trace = [] ∧
    (executeSwap envBase 2 "0xEEeeeEEEeEeEeeEEeeeeEeeeeEEeEeeeEeEEeeEE" "0xTokenB" "1.5"
        none "0.03" "default" []).result = .error (.valueError "Unsupported chain ID: 2") :=
  ⟨rfl, rfl⟩

/-- Witness for C1 (amended): a fully successful run returns the hash
send_transaction produced for the final swap broadcast, and a run whose
swap-quote call fails propagates exactly that error with all earlier
calls succeeding. -/
theorem C1_witness :
    ((executeSwap envBase 1 "0xTokenA" "0xTokenB" "1.5" none "0.03" "default" []).result =
        .ok "0xhash" ∧
      (∃ tx, (executeSwap envBase 1 "0xTokenA" "0xTokenB" "1.5" none "0.03" "default" []).trace.getLast? =
          some (.sendTransaction .swapSend tx (walletGet envBase "default").private_key) ∧
        envBase.sendTransaction tx (walletGet envBase "default").private_key = .ok "0xhash")) ∧
    ((executeSwap envFailSwap 1 "0xTokenA" "0xTokenB" "1.5" none "0.03" "default" []).result =
        .error (.callFail "boom") ∧
      (((executeSwap envFailSwap 1 "0xTokenA" "0xTokenB" "1.5" none "0.03" "default" []).trace = [] ∧
          .callFail "boom" = Err.valueError "Unsupported chain ID: 1" ∧
          isNativeToken "0xTokenA" = true ∧ envFailSwap.nativeTokens 1 = none) ∨
       (∃ t ev, (executeSwap envFailSwap 1 "0xTokenA" "0xTokenB" "1.5" none "0.03" "default" []).trace =
            t ++ [ev] ∧
          evErr envFailSwap ev = some (.callFail "boom") ∧
          ∀ x ∈ t, evErr envFailSwap x = none))) :=
  ⟨⟨rfl, (C1_amended envBase 1 "0xTokenA" "0xTokenB" "1.5" none "0.03" "default" []).1
      "0xhash" rfl⟩,
   ⟨rfl, (C1_amended envFailSwap 1 "0xTokenA" "0xTokenB" "1.5" none "0.03" "default" []).2
      (.callFail "boom") rfl⟩⟩

/- ------------------------------------------------------------------
   C4: number of external calls.
   ------------------------------------------------------------------ -/

/-- C4 (amended): a successful execute_swap performs exactly three
sequential external calls only when the from-token is native; for an
ERC20 from-token it performs 7 calls (sufficient allowance), 10 calls
(approval broadcast returning an empty hash, receipt wait skipped) or 11
calls (approval broadcast and receipt awaited). -/
theorem C4_amended (env : Env) (c : Int) (ft tt amt : String) (recip : Option String)
    (slip name : String) (kw : Dict) (hash : String)
    (hok : (executeSwap env c ft tt amt recip slip name kw).result = .ok hash) :
    (isNativeToken ft = true →
       (executeSwap env c ft tt amt recip slip name kw).trace.length = 3) ∧
    (isNativeToken ft = false →
       (executeSwap env c ft tt amt recip slip name kw).trace.length = 7 ∨
       (executeSwap env c ft tt amt recip slip name kw).trace.length = 10 ∨
       (executeSwap env c ft tt amt recip slip name kw).trace.length = 11) := by
  rcases executeSwap_ok_detail env c ft tt amt recip slip name kw hash hok with
    ⟨d, sd, n, hN, -, -, htr⟩ |
    ⟨d, ad, a0, sd, n, hN, -, -, -, -, -, htr⟩ |
    ⟨d, ad, a0, gp, n1, h1, sd, n, hN, -, -, -, -, -, -, -, htr⟩ |
    ⟨d, ad, a0, gp, n1, h1, sd, n, hN, -, -, -, -, -, -, -, -, htr⟩
  · exact ⟨fun _ => by rw [htr]; rfl, fun hf => absurd hN (by rw [hf]; simp)⟩
  · exact ⟨fun ht => absurd hN (by rw [ht]; simp), fun _ => Or.inl (by rw [htr]; rfl)⟩
  · exact ⟨fun ht => absurd hN (by rw [ht]; simp), fun _ => Or.inr (Or.inl (by rw [htr]; rfl))⟩
  · exact ⟨fun ht => absurd hN (by rw [ht]; simp), fun _ => Or.inr (Or.inr (by rw [htr]; rfl))⟩

/-- C4 counterexample: a successful ERC20 execute_swap (approval needed
and awaited) performs 11 external calls, not three. -/
theorem C4_counterexample :
    (executeSwap envBase 1 "0xTokenA" "0xTokenB" "1.5" none "0.03" "default" []).result =
      .ok "0xhash" ∧
    (executeSwap envBase 1 "0xTokenA" "0xTokenB" "1.5" none "0.03" "default" []).trace.length ≠ 3 :=
  ⟨rfl, by decide⟩

/-- Witness for C4 (amended): a successful native-token swap performs
exactly three external calls. -/
theorem C4_witness :
    isNativeToken "0xEEeeeEEEeEeEeeEEeeeeEeeeeEEeEeeeEeEEeeEE" = true ∧
    (executeSwap envBase 1 "0xEEeeeEEEeEeEeeEEeeeeEeeeeEEeEeeeEeEEeeEE" "0xTokenB" "1.5"
        none "0.03" "default" []).result = .ok "0xhash" ∧
    (executeSwap envBase 1 "0xEEeeeEEEeEeEeeEEeeeeEeeeeEEeEeeeEeEEeeEE" "0xTokenB" "1.5"
        none "0.03" "default" []).trace.length = 3 := by
  refine ⟨by decide, rfl, ?_⟩
  exact (C4_amended envBase 1 "0xEEeeeEEEeEeEeeEEeeeeEeeeeEEeEeeeEeEEeeEE" "0xTokenB" "1.5"
    none "0.03" "default" [] "0xhash" rfl).1 (by decide)

/- ------------------------------------------------------------------
   C2: ordering of the ERC20 swap steps.
   ------------------------------------------------------------------ -/

/-- C2 (amended): in every successful ERC20 execute_swap, the approval
transaction is fetched before the swap quote is fetched, the signed swap
is broadcast last, and if an approval was broadcast whose returned hash
is non-empty (Python truthiness at swap.py line 146), its confirmation
receipt is awaited after the broadcast and before the swap-quote fetch.
(The claim as stated fails when the node returns an empty-string hash:
the broadcast then happens but the wait is skipped.) -/
theorem C2_amended (env : Env) (c : Int) (ft tt amt : String) (recip : Option String)
    (slip name : String) (kw : Dict) (hash : String)
    (hN : isNativeToken ft = false)
    (hok : (executeSwap env c ft tt amt recip slip name kw).result = .ok hash) :
    List.Sublist [Site.approveFetch, Site.swapFetch, Site.swapSend]
      ((executeSwap env c ft tt amt recip slip name kw).trace.map Event.site) ∧
    ((∃ tx k h1, Event.sendTransaction .approveSend tx k ∈
          (executeSwap env c ft tt amt recip slip name kw).trace ∧
        env.sendTransaction tx k = .ok h1 ∧ h1.isEmpty = false) →
      List.Sublist [Site.approveSend, Site.receiptWait, Site.swapFetch, Site.swapSend]
        ((executeSwap env c ft tt amt recip slip name kw).trace.map Event.site)) ∧
    ((executeSwap env c ft tt amt recip slip name kw).trace.map Event.site).getLast? =
      some Site.swapSend := by
  rcases executeSwap_ok_detail env c ft tt amt recip slip name kw hash hok with
    ⟨d, sd, n, hN2, -, -, htr⟩ |
    ⟨d, ad, a0, sd, n, -, -, -, -, -, -, htr⟩ |
    ⟨d, ad, a0, gp, n1, h1, sd, n, -, -, -, -, -, hsd, hem, -, htr⟩ |
    ⟨d, ad, a0, gp, n1, h1, sd, n, -, -, -, -, -, -, hem, -, -, htr⟩
  · exact absurd hN2 (by rw [hN]; simp)
  · refine ⟨?_, ?_, ?_⟩
    · rw [htr]
      simp only [List.map_cons, List.map_nil, Event.site]
      decide
    · rintro ⟨tx, k, h1x, hmem, -, -⟩
      rw [htr] at hmem
      simp at hmem
    · rw [htr]
      simp only [List.map_cons, List.map_nil, Event.site]
      rfl
  · refine ⟨?_, ?_, ?_⟩
    · rw [htr]
      simp only [List.map_cons, List.map_nil, Event.site]
      decide
    · rintro ⟨tx, k, h1x, hmem, hsend2, hne⟩
      rw [htr] at hmem
      simp at hmem
      obtain ⟨htx, hk⟩ := hmem
      subst htx
      subst hk
      rw [hsd] at hsend2
      have he1 : h1 = h1x := Except.ok.inj hsend2
      rw [← he1] at hne
      rw [hem] at hne
      exact Bool.noConfusion hne
    · rw [htr]
      simp only [List.map_cons, List.map_nil, Event.site]
      rfl
  · refine ⟨?_, ?_, ?_⟩
    · rw [htr]
      simp only [List.map_cons, List.map_nil, Event.site]
      decide
    · intro hbc
      rw [htr]
      simp only [List.map_cons, List.map_nil, Event.site]
      decide
    · rw [htr]
      simp only [List.map_cons, List.map_nil, Event.site]
      rfl

/-- C2 counterexample: when the node's approval broadcast returns an
empty-string hash, the approval was broadcast but — contrary to the
claim — its confirmation receipt is never awaited (Python truthiness of
"" at swap.py line 146), even though the run completes successfully. -/
theorem C2_counterexample :
    (executeSwap envEmptyHash 1 "0xTokenA" "0xTokenB" "1.5" none "0.03" "default" []).result =
      .ok "0xswap" ∧
    (∃ tx k, Event.sendTransaction .approveSend tx k ∈
        (executeSwap envEmptyHash 1 "0xTokenA" "0xTokenB" "1.5" none "0.03" "default" []).trace) ∧
    Site.receiptWait ∉
      ((executeSwap envEmptyHash 1 "0xTokenA" "0xTokenB" "1.5" none "0.03"
        "default" []).trace.map Event.site) := by
  refine ⟨rfl, ⟨buildApproveTransaction 7 "0xTokenA" 100
    ⟨"0xSpender", 60000, "0xapprovecalldata"⟩ 1, "0xPrivKey", ?_⟩, ?_⟩
  · decide
  · decide

/-- Witness for C2 (amended): a successful ERC20 run with approval and
receipt wait exhibits the claimed ordering. -/
theorem C2_witness :
    isNativeToken "0xTokenA" = false ∧
    (executeSwap envBase 1 "0xTokenA" "0xTokenB" "1.5" none "0.03" "default" []).result =
      .ok "0xhash" ∧
    List.Sublist [Site.approveFetch, Site.swapFetch, Site.swapSend]
      ((executeSwap envBase 1 "0xTokenA" "0xTokenB" "1.5" none "0.03"
        "default" []).trace.map Event.site) ∧
    ((executeSwap envBase 1 "0xTokenA" "0xTokenB" "1.5" none "0.03"
      "default" []).trace.map Event.site).getLast? = some Site.swapSend := by
  have h := C2_amended envBase 1 "0xTokenA" "0xTokenB" "1.5" none "0.03" "default" []
    "0xhash" (by decide) rfl
  exact ⟨by decide, rfl, h.1, h.2.2⟩

/- ------------------------------------------------------------------
   C7: no retries; sites per invocation; nothing after a failure.
   ------------------------------------------------------------------ -/

/-- C7 (amended): no external call is ever retried.  Within one
check_and_approve or create_swap_transaction invocation every call site
executes at most once.  Within one execute_swap invocation every call
site executes at most once except the token-decimals query, which runs
exactly twice on the ERC20 path (once directly for the approval amount
and once inside create_swap_transaction) — these are two calls of the
same site, not retries.  After an external call fails, no further
external call is made: every event before the failing one succeeded and
the failing call is the last event. -/
theorem C7_amended (env : Env) :
    (∀ (c : Int) (ft tt amt : String) (recip : Option String) (slip name : String)
       (kw : Dict) (s : Site),
       countSite (executeSwap env c ft tt amt recip slip name kw).trace s ≤
         (if s = Site.decimalsQuery then 2 else 1)) ∧
    (∀ (c : Int) (t o : String) (a : Nat) (s : Site),
       countSite (checkAndApprove env c t o a).trace s ≤ 1) ∧
    (∀ (c : Int) (ft tt amt u : String) (recip : Option String) (slip : String)
       (kw : Dict) (s : Site),
       countSite (createSwapTransaction env c ft tt amt u recip slip kw).trace s ≤ 1) ∧
    (∀ (c : Int) (ft tt amt : String) (recip : Option String) (slip name : String)
       (kw : Dict) (e : Err),
       (executeSwap env c ft tt amt recip slip name kw).result = .error e →
       ∀ x ∈ (executeSwap env c ft tt amt recip slip name kw).trace.dropLast,
         evErr env x = none) := by
  refine ⟨?_, ?_, ?_, ?_⟩
  · intro c ft tt amt recip slip name kw s
    have h := (executeSwap_sites_sublist env c ft tt amt recip slip name kw).count_le s
    rw [count_fullSites] at h
    simpa [countSite] using h
  · intro c t o a s
    have h := (caa_sites_sublist env c t o a).count_le s
    have h2 : List.count s [Site.approveFetch, Site.allowanceQuery, Site.approveGasPrice,
        Site.approveNonce, Site.approveSend] ≤ 1 := by
      cases s <;> decide
    exact le_trans (by simpa [countSite] using h) h2
  · intro c ft tt amt u recip slip kw s
    have h := (cst_sites_sublist env c ft tt amt u recip slip kw).count_le s
    have h2 : List.count s [Site.decimalsQuery, Site.swapFetch] ≤ 1 := by
      cases s <;> decide
    exact le_trans (by simpa [countSite] using h) h2
  · intro c ft tt amt recip slip name kw e he x hx
    rcases (executeSwap_shape env c ft tt amt recip slip name kw).1 e he with
      ⟨htr, -, -, -⟩ | ⟨t, ev, htr, -, hall⟩
    · rw [htr] at hx
      simp at hx
    · rw [htr, List.dropLast_concat] at hx
      exact hall x hx

/-- C7 counterexample: the token-decimals call site (swap.py line 84)
executes twice within a single successful execute_swap invocation, once
via execute_swap's own amount conversion and once inside
create_swap_transaction, refuting 'each collaborator call site executes
at most once per invocation'. -/
theorem C7_counterexample :
    (executeSwap envBase 1 "0xTokenA" "0xTokenB" "1.5" none "0.03" "default" []).result =
      .ok "0xhash" ∧
    countSite (executeSwap envBase 1 "0xTokenA" "0xTokenB" "1.5" none "0.03"
      "default" []).trace Site.decimalsQuery = 2 := by
  exact ⟨rfl, by decide⟩

/-- Witness for C7 (amended): site-count bounds at concrete runs, and,
when the swap-quote call fails, every earlier call succeeded. -/
theorem C7_witness :
    countSite (executeSwap envBase 1 "0xTokenA" "0xTokenB" "1.5" none "0.03"
      "default" []).trace Site.swapSend ≤ 1 ∧
    countSite (checkAndApprove envBase 1 "0xTokenA" "0xUserAddress" 1000000).trace
      Site.approveSend ≤ 1 ∧
    ((executeSwap envFailSwap 1 "0xTokenA" "0xTokenB" "1.5" none "0.03"
        "default" []).result = .error (.callFail "boom") ∧
      ∀ x ∈ (executeSwap envFailSwap 1 "0xTokenA" "0xTokenB" "1.5" none "0.03"
        "default" []).trace.dropLast, evErr envFailSwap x = none) := by
  refine ⟨?_, ?_, rfl, ?_⟩
  · have h := (C7_amended envBase).1 1 "0xTokenA" "0xTokenB" "1.5" none "0.03" "default" []
      Site.swapSend
    simpa using h
  · exact (C7_amended envBase).2.1 1 "0xTokenA" "0xUserAddress" 1000000 Site.approveSend
  · exact (C7_amended envFailSwap).2.2.2 1 "0xTokenA" "0xTokenB" "1.5" none "0.03" "default" []
      (.callFail "boom") rfl
